import Mathlib

/-
Shallow embedding of the stockmaster core (rule scheduling / application
state machine, catalog reconciliation, rule matcher, Shopify REST client)
for checking the natural-language specification against the code.

Model rows mirror the Django models:
  apps/rules/models.py        (Rule, RuleApplication)
  apps/inventory/models.py    (Product, ProductVariant, InventoryLocation,
                               InventoryLevel, InventoryLog)
  apps/accounts/models.py     (ShopifyStore)

Task logic is embedded from:
  apps/inventory/tasks/rule_tasks.py   (namespace PkgTasks; this is the
      module Python imports, because the package apps/inventory/tasks/
      shadows the sibling flat module apps/inventory/tasks.py)
  apps/inventory/tasks.py              (namespace FlatTasks; the shadowed
      flat module, cited by the claims alongside the package version)
  apps/inventory/tasks/sync_tasks.py   (namespace Sync)
  apps/inventory/tasks/utils.py        (rule_matches_product)
  core/shopify/client.py               (namespace Client)

Conventions: timestamps are abstract Int instants (timezone.now() is an
explicit `now` argument; timedelta(minutes=m) is +m, entire days are kept
as day counts where only their presence matters); nullable columns are
Option; Django CharField values are String. Python exceptions that the
embedded code can raise are the explicit PyExn values; a raise inside a
transaction.atomic block rolls every write of the block back.
-/

/-- Python truthiness of an optional string (None and the empty string are
falsy); used for `if rule.product_type_filter:` style checks. -/
def strTruthy : Option String → Bool
  | none => false
  | some s => decide (s ≠ "")

/-- Python truthiness of an optional integer (None and 0 are falsy). -/
def intTruthy : Option Int → Bool
  | none => false
  | some n => decide (n ≠ 0)

/-- Row of apps/rules/models.py Rule. The model defines exactly these
columns (timestamps dropped); in particular there is NO send_notification
and NO return_days column, which rule_tasks.py nevertheless accesses. -/
structure Rule where
  id : Nat
  store_id : Nat
  name : String
  description : Option String
  trigger_type : String
  threshold : Int
  action_type : String
  delay_minutes : Int
  auto_restore : Bool
  restore_after_days : Int
  product_type_filter : Option String
  vendor_filter : Option String
  tag_filter : Option String
  collection_filter : Option String
  is_active : Bool
  priority : Int
deriving DecidableEq

/-- Row of apps/inventory/models.py Product (timestamps other than
last_synced dropped). -/
structure Product where
  id : Nat
  store_id : Nat
  shopify_id : Int
  title : String
  handle : String
  product_type : Option String
  vendor : Option String
  status : String
  published_at : Option Int
  last_synced : Int
  is_visible : Bool
  hidden_at : Option Int
  scheduled_return : Option Int
deriving DecidableEq

/-- Row of apps/rules/models.py RuleApplication. Its STATUS_CHOICES are
pending / applied / reversed / failed. The model has NO restored_at
column, which rule_tasks.py nevertheless passes to save(update_fields). -/
structure RuleApplication where
  id : Nat
  rule_id : Nat
  product_id : Nat
  status : String
  triggered_at : Int
  scheduled_for : Option Int
  applied_at : Option Int
  restore_scheduled_for : Option Int
  notes : Option String
deriving DecidableEq

/-- Row of apps/inventory/models.py InventoryLog (append-only audit). -/
structure InventoryLog where
  store_id : Nat
  product_id : Option Nat
  variant_id : Option Nat
  location_id : Option Nat
  action : String
  previous_value : Option Int
  new_value : Option Int
  previous_status : Option String
  new_status : Option String
  notes : Option String
deriving DecidableEq

/-- Result dictionary returned by the celery task functions; only the
status key and the strings the claims mention are kept. -/
inductive TaskResult where
  | success (action : Option String)
  | skipped (reason : String)
  | deferred
  | error (message : String)
deriving DecidableEq

/-- The Python exceptions the embedded code can raise. -/
inductive PyExn where
  | attributeError (obj : String) (attr : String)
  | typeError (model : String) (kwarg : String)
  | valueError (info : String)
deriving DecidableEq

/-- Rendering of a PyExn as the message string str(e) that the except
branches put into the returned error dictionary. -/
def pyMessage : PyExn → String
  | PyExn.attributeError o a => o ++ (" object has no attribute ") ++ a
  | PyExn.typeError m kw => m ++ (" got unexpected keyword argument ") ++ kw
  | PyExn.valueError i => i

namespace PkgTasks

/-- Database plus celery-queue state visible to the rule tasks of
apps/inventory/tasks/rule_tasks.py. queuedApply records apply_rule.delay
calls, queuedRestore records restore_product.apply_async(args, eta) calls,
queuedNotifications records send_rule_applied_notification.delay calls. -/
structure State where
  rules : List Rule
  products : List Product
  applications : List RuleApplication
  logs : List InventoryLog
  queuedApply : List Nat
  queuedRestore : List (Nat × Int)
  queuedNotifications : List Nat
  nextApplicationId : Nat
deriving DecidableEq

/-- RuleApplication.objects.get(id=...). -/
def findApplication (s : State) (appId : Nat) : Option RuleApplication :=
  s.applications.find? (fun a => decide (a.id = appId))

/-- Rule row reached through select_related on the application. -/
def findRule (s : State) (ruleId : Nat) : Option Rule :=
  s.rules.find? (fun r => decide (r.id = ruleId))

/-- Product row reached through select_related on the application. -/
def findProduct (s : State) (productId : Nat) : Option Product :=
  s.products.find? (fun p => decide (p.id = productId))

/-- The dedup query of schedule_rule_application (rule_tasks.py lines
38 to 42): RuleApplication.objects.filter(rule, product,
status=pending).exists(). -/
def pendingExists (s : State) (ruleId productId : Nat) : Bool :=
  s.applications.any (fun a =>
    decide (a.rule_id = ruleId ∧ a.product_id = productId ∧ a.status = ("pending")))

/-- rule_tasks.py schedule_rule_application (lines 31 to 65). If a pending
application for the pair already exists the function returns with no
write. Otherwise it computes apply_at and calls
RuleApplication.objects.create(rule, product, status=pending,
scheduled_at=apply_at); the model defines scheduled_for, not scheduled_at,
so Model.init rejects the keyword and raises TypeError before any row is
inserted. The caller has no try/except around this call, hence Except. -/
def schedule_rule_application (rule : Rule) (productId : Nat) (now : Int)
    (s : State) : Except PyExn State :=
  if pendingExists s rule.id productId then
    Except.ok s
  else
    let _apply_at : Int :=
      if rule.delay_minutes > 0 then now + rule.delay_minutes else now
    Except.error (PyExn.typeError ("RuleApplication") ("scheduled_at"))

/-- product.save(update_fields=[is_visible, hidden_at, ...]) for fields
that all exist on Product: replace the row with the mutated instance. -/
def saveProduct (s : State) (p : Product) : State :=
  { s with products := s.products.map (fun r => if r.id = p.id then p else r) }

/-- application.save with valid update_fields. -/
def saveApplication (s : State) (a : RuleApplication) : State :=
  { s with applications :=
      s.applications.map (fun r => if r.id = a.id then a else r) }

/-- InventoryLog.objects.create. -/
def addLog (s : State) (l : InventoryLog) : State :=
  { s with logs := s.logs ++ [l] }

/-- Body of the transaction.atomic block of rule_tasks.py apply_rule
(lines 79 to 139), entered only with a pending application. A thrown
PyExn aborts the block and rolls all of its writes back.
The hide_product branch mutates the product and saves it. The
schedule_return branch first evaluates rule.return_days, an attribute
the Rule model does not define, so it raises AttributeError there. Any
other action_type matches no branch and falls through unchanged. The
code then marks the application applied, writes the InventoryLog row
(previous_status is computed from the already mutated in-memory product
instance), and finally evaluates `if rule.send_notification:`; Rule
defines no send_notification column or property, so every path that
reaches this line raises AttributeError. -/
def apply_rule_txn (now : Int) (s : State) (app : RuleApplication)
    (rule : Rule) (product : Product) :
    Except PyExn (State × TaskResult) := do
  let productInst : Product ←
    if rule.action_type = ("hide_product") then
      pure ({ product with is_visible := false, hidden_at := some now })
    else if rule.action_type = ("schedule_return") then
      throw (PyExn.attributeError ("Rule") ("return_days"))
    else
      pure product
  let s :=
    if rule.action_type = ("hide_product") then saveProduct s productInst
    else s
  let s := saveApplication s
    ({ app with status := ("applied"), applied_at := some now })
  let s := addLog s
    ({ store_id := productInst.store_id
     , product_id := some productInst.id
     , variant_id := none
     , location_id := none
     , action := ("rule")
     , previous_value := none
     , new_value := none
     , previous_status :=
         some (if productInst.is_visible then ("visible") else ("hidden"))
     , new_status := some ("hidden")
     , notes := some (("Rule ") ++ rule.name ++ (" applied")) })
  let _ := s
  throw (PyExn.attributeError ("Rule") ("send_notification"))

/-- rule_tasks.py apply_rule (lines 68 to 146). The whole body sits in a
try with `with transaction.atomic():`; the guard returns skipped for any
status other than pending before any write; a PyExn raised inside the
atomic block rolls the block back and the except branch returns an error
dictionary built from str(e). -/
def apply_rule (appId : Nat) (now : Int) (s : State) : State × TaskResult :=
  match findApplication s appId with
  | none => (s, TaskResult.error ("Rule application not found"))
  | some app =>
    if app.status ≠ ("pending") then
      (s, TaskResult.skipped (("Status is ") ++ app.status))
    else
      match findRule s app.rule_id, findProduct s app.product_id with
      | some rule, some product =>
        (match apply_rule_txn now s app rule product with
         | Except.ok st => st
         | Except.error e => (s, TaskResult.error (pyMessage e)))
      | _, _ => (s, TaskResult.error ("related row missing"))

/-- Body of the transaction.atomic block of rule_tasks.py restore_product
(lines 191 to 230), entered only with an applied application. It makes
the product visible again (is_visible True, hidden_at None,
scheduled_return None; all valid update_fields), writes the InventoryLog
row, then sets application.status to restored (a value outside the model
STATUS_CHOICES) and calls application.save(update_fields=[status,
restored_at]); RuleApplication has no restored_at column, so this save
raises ValueError and the transaction rolls back. -/
def restore_product_txn (_now : Int) (s : State) (app : RuleApplication)
    (rule : Rule) (product : Product) :
    Except PyExn (State × TaskResult) := do
  let productInst : Product :=
    { product with is_visible := true, hidden_at := none,
                   scheduled_return := none }
  let s := saveProduct s productInst
  let s := addLog s
    ({ store_id := productInst.store_id
     , product_id := some productInst.id
     , variant_id := none
     , location_id := none
     , action := ("schedule")
     , previous_value := none
     , new_value := none
     , previous_status := some ("hidden")
     , new_status := some ("visible")
     , notes := some (("Product restored after rule ") ++ rule.name) })
  let _attempted := { app with status := ("restored") }
  let _ := s
  throw (PyExn.valueError
    ("update_fields restored_at is not a RuleApplication field"))

/-- rule_tasks.py restore_product (lines 181 to 237): guard returns
skipped unless the status is exactly applied; a PyExn inside the atomic
block rolls back and returns an error dictionary. -/
def restore_product (appId : Nat) (now : Int) (s : State) :
    State × TaskResult :=
  match findApplication s appId with
  | none => (s, TaskResult.error ("Rule application not found"))
  | some app =>
    if app.status ≠ ("applied") then
      (s, TaskResult.skipped (("Status is ") ++ app.status))
    else
      match findRule s app.rule_id, findProduct s app.product_id with
      | some rule, some product =>
        (match restore_product_txn now s app rule product with
         | Except.ok st => st
         | Except.error e => (s, TaskResult.error (pyMessage e)))
      | _, _ => (s, TaskResult.error ("related row missing"))

end PkgTasks

/-- apps/inventory/tasks/utils.py rule_matches_product (lines 56 to 77),
identical text also at apps/inventory/tasks.py lines 278 to 299. A falsy
(None or empty) filter is skipped; a truthy filter rejects the product
unless it equals the corresponding product attribute (Python != on the
string versus the nullable attribute, i.e. exact case-sensitive equality
and a None attribute never equals a set filter). The function only reads
its arguments; it is embedded as a pure Bool function. -/
def rule_matches_product (rule : Rule) (product : Product) : Bool :=
  if strTruthy rule.product_type_filter
      ∧ rule.product_type_filter ≠ product.product_type then
    false
  else if strTruthy rule.vendor_filter
      ∧ rule.vendor_filter ≠ product.vendor then
    false
  else
    true

namespace FlatTasks

/-- Database plus celery-queue state visible to the flat module
apps/inventory/tasks.py. queuedNotifications records
send_rule_applied_notification.delay(store.id, rule.id, product.id). -/
structure State where
  rules : List Rule
  products : List Product
  applications : List RuleApplication
  logs : List InventoryLog
  queuedNotifications : List (Nat × Nat × Nat)
deriving DecidableEq

/-- apps/inventory/tasks.py apply_rule (lines 345 to 444). remoteOk is
the outcome of client.update_product: true when the Shopify call returns
a dictionary containing the product key, false when it returns None.
Statuses other than pending are skipped before any read of the remote or
any write; a pending application whose scheduled_for lies in the future
is deferred; the hide_product branch mutates product status/visibility,
appends one InventoryLog row, marks the application applied and queues
one notification; a failed remote update marks the application failed;
any other action_type is marked failed with an explanatory note. This
function has no transaction.atomic wrapper in the source. -/
def notYetDue (scheduled_for : Option Int) (now : Int) : Bool :=
  match scheduled_for with
  | some t => decide (t > now)
  | none => false

/-- product.save() of the flat module (saves every field of the mutated
instance). -/
def flatSaveProduct (s : State) (p : Product) : State :=
  { s with products := s.products.map (fun r => if r.id = p.id then p else r) }

/-- rule_app.save() of the flat module. -/
def flatSaveApplication (s : State) (a : RuleApplication) : State :=
  { s with applications := s.applications.map (fun r => if r.id = a.id then a else r) }

def flatAddLog (s : State) (l : InventoryLog) : State :=
  { s with logs := s.logs ++ [l] }

/-- The successful hide_product branch of the flat apply_rule: the remote
update succeeded, so the product becomes a hidden draft, one hide log row
is appended, the application is marked applied and one notification is
queued. -/
def applyHideOk (now : Int) (s : State) (rule_app : RuleApplication)
    (rule : Rule) (product : Product) : State × TaskResult :=
  let product1 : Product :=
    { product with status := ("draft"), is_visible := false, hidden_at := some now }
  let s1 := flatSaveProduct s product1
  let s2 := flatAddLog s1
    ({ store_id := rule.store_id
     , product_id := some product.id
     , variant_id := none
     , location_id := none
     , action := ("hide")
     , previous_value := none
     , new_value := none
     , previous_status := some product.status
     , new_status := some ("draft")
     , notes := some (("Hidden by rule: ") ++ rule.name) })
  let s3 := flatSaveApplication s2
    ({ rule_app with status := ("applied"), applied_at := some now })
  let s4 := { s3 with queuedNotifications :=
                s3.queuedNotifications ++ [(rule.store_id, rule.id, product.id)] }
  (s4, TaskResult.success (some ("hide_product")))

/-- rule_app.status = failed with a note, as done by the flat apply_rule
on a remote failure or an unsupported action type. -/
def markFailed (s : State) (rule_app : RuleApplication) (note : String) : State :=
  flatSaveApplication s ({ rule_app with status := ("failed"), notes := some note })

def apply_rule (appId : Nat) (now : Int) (remoteOk : Bool) (s : State) :
    State × TaskResult :=
  match s.applications.find? (fun a => decide (a.id = appId)) with
  | none => (s, TaskResult.error ("Rule application not found"))
  | some rule_app =>
    if rule_app.status ≠ ("pending") then
      (s, TaskResult.skipped (("Rule already in status: ") ++ rule_app.status))
    else if notYetDue rule_app.scheduled_for now then
      (s, TaskResult.deferred)
    else
      match s.rules.find? (fun r => decide (r.id = rule_app.rule_id)),
            s.products.find? (fun p => decide (p.id = rule_app.product_id)) with
      | some rule, some product =>
        if rule.action_type = ("hide_product") then
          if remoteOk then
            applyHideOk now s rule_app rule product
          else
            (markFailed s rule_app ("Failed to update product in Shopify"),
             TaskResult.error ("Failed to update product in Shopify"))
        else
          (markFailed s rule_app (("Unsupported action type: ") ++ rule.action_type),
           TaskResult.error (("Unsupported action type: ") ++ rule.action_type))
      | _, _ => (s, TaskResult.error ("related row missing"))

/-- A ProductVariant row as read by the out-of-stock query of
apps/inventory/tasks.py sync_product: only the pk and owning product. -/
structure VariantRow where
  id : Nat
  product_id : Nat
deriving DecidableEq

/-- An InventoryLevel row as read by the same query: owning variant,
location and the available quantity. -/
structure LevelRow where
  variant_id : Nat
  location_id : Nat
  available : Int
deriving DecidableEq

/-- The query of apps/inventory/tasks.py sync_product lines 221 to 225:
sum(InventoryLevel.objects.filter(variant__product=product)
.values_list(available)), i.e. the sum of available over every
variant-and-location row belonging to the product. -/
def total_inventory (productId : Nat) (variants : List VariantRow)
    (levels : List LevelRow) : Int :=
  ((levels.filter (fun lv =>
      decide ((variants.find? (fun v => decide (v.id = lv.variant_id))).map
        (fun v => v.product_id) = some productId))).map
    (fun lv => lv.available)).sum

/-- Outcome of the stock classification tail of sync_product (lines 220
to 237): whether process_out_of_stock_rules was invoked and the
is_out_of_stock flag of the returned dictionary. -/
structure StockOutcome where
  total : Int
  rules_processed : Bool
  is_out_of_stock : Bool
deriving DecidableEq

/-- apps/inventory/tasks.py sync_product lines 220 to 237: after the
upserts, the product is classified out of stock and
process_out_of_stock_rules(store, product) is called exactly when the
total inventory is ≤ 0; the returned dictionary carries the same flag. -/
def sync_product_stock_check (productId : Nat) (variants : List VariantRow)
    (levels : List LevelRow) : StockOutcome :=
  let t := total_inventory productId variants levels
  { total := t
  , rules_processed := decide (t ≤ 0)
  , is_out_of_stock := decide (t ≤ 0) }

end FlatTasks

namespace Client

/-- What one HTTP attempt by the requests library produces for
core/shopify/client.py: either a raised requests exception (connection
error, timeout, and the like) or a response with a status code and a
parsed JSON body. -/
inductive HttpAttempt where
  | exn
  | resp (status : Nat) (body : String)
deriving DecidableEq

/-- ShopifyClient request method (client.py lines 111 to 156) run against
a trace of successive HTTP attempts (the 429 branch sleeps and re-issues
the request, consuming the next attempt). A raised requests exception is
caught and returns None. A 429 response retries. raise_for_status raises
HTTPError, a requests exception, exactly for statuses 400 to 599, which
the except branch turns into None. Any other status reaches
response.json() and its body is returned. An exhausted trace stands for
a request that never completes and is mapped to None; no theorem below
depends on that corner. -/
def clientRequestTrace : List HttpAttempt → Option String
  | [] => none
  | HttpAttempt.exn :: _ => none
  | HttpAttempt.resp status body :: rest =>
    if status = 429 then clientRequestTrace rest
    else if 400 ≤ status ∧ status < 600 then none
    else some body

/-- ShopifyClient request including the unsupported-method branch: a
method outside GET/POST/PUT/DELETE raises ValueError inside the try, and
ValueError is not a requests exception, so it propagates to the caller
(Except.error); every other path returns Except.ok as clientRequestTrace. -/
def clientRequest (method : String) (attempts : List HttpAttempt) :
    Except PyExn (Option String) :=
  if method = ("GET") ∨ method = ("POST") ∨ method = ("PUT")
      ∨ method = ("DELETE") then
    Except.ok (clientRequestTrace attempts)
  else
    Except.error (PyExn.valueError (("Unsupported HTTP method: ") ++ method))

/-- client.py get_products: request(GET, /products.json). -/
def get_products (attempts : List HttpAttempt) : Except PyExn (Option String) :=
  clientRequest ("GET") attempts

/-- client.py update_product: request(PUT, /products/{id}.json). -/
def update_product (attempts : List HttpAttempt) : Except PyExn (Option String) :=
  clientRequest ("PUT") attempts

/-- client.py get_inventory_levels: request(GET, /inventory_levels.json). -/
def get_inventory_levels (attempts : List HttpAttempt) :
    Except PyExn (Option String) :=
  clientRequest ("GET") attempts

/-- client.py create_webhook: request(POST, /webhooks.json). -/
def create_webhook (attempts : List HttpAttempt) : Except PyExn (Option String) :=
  clientRequest ("POST") attempts

end Client

namespace Sync

/-- A variant as fetched from the Shopify REST catalog (the fields that
sync_tasks.py reads; sku, barcode, compare_at_price and position are
optional attributes whose presence/truthiness the code tests). -/
structure RVariant where
  id : Int
  title : String
  price : Int
  sku : Option String
  barcode : Option String
  compare_at_price : Option Int
  position : Option Int
  inventory_item_id : Int
deriving DecidableEq

/-- A product as fetched from the Shopify REST catalog. -/
structure RProduct where
  id : Int
  title : String
  handle : String
  status : String
  product_type : Option String
  vendor : Option String
  published_at : Option Int
  variants : List RVariant
deriving DecidableEq

/-- One inventory level returned by shopify.InventoryLevel.find;
level_data.available may be None (the code writes `available or 0`). -/
structure RLevel where
  location_id : Int
  available : Option Int
deriving DecidableEq

/-- The remote catalog as seen by one full sync run: the paginated
product list and, per inventory_item_id, the outcome of
shopify.InventoryLevel.find (none models the call raising, which the
per-variant try/except logs and skips). -/
structure Catalog where
  products : List RProduct
  inventory : List (Int × Option (List RLevel))
deriving DecidableEq

def fetchInventoryLevels (cat : Catalog) (iid : Int) : Option (List RLevel) :=
  match cat.inventory.find? (fun e => decide (e.fst = iid)) with
  | some e => e.snd
  | none => none

/-- Local Product row as touched by sync_tasks.py, keyed by the natural
key (store, shopify_id) of the unique_together constraint; the store is
fixed (one store per sync run) so the key is shopify_id. Fields the sync
never writes (is_visible, hidden_at, scheduled_return) are carried to
state the frame. created_at/auto timestamps other than the two the sync
writes are dropped. -/
structure SProduct where
  shopify_id : Int
  title : String
  handle : String
  status : String
  product_type : Option String
  vendor : Option String
  published_at : Option Int
  is_visible : Bool
  hidden_at : Option Int
  scheduled_return : Option Int
  last_synced : Int
  updated_at : Int
deriving DecidableEq

/-- Local ProductVariant row; the foreign key to Product is represented
by the owning product shopify_id (product_sid), per the (product,
shopify_id) unique_together. -/
structure SVariant where
  product_sid : Int
  shopify_id : Int
  title : String
  sku : Option String
  barcode : Option String
  price : Int
  compare_at_price : Option Int
  position : Int
  inventory_item_id : Int
  updated_at : Int
deriving DecidableEq

/-- Local InventoryLocation row (store fixed, keyed by shopify_id).
get_or_create never updates an existing row, and the sync never writes
its timestamps, so none are modeled. -/
structure SLocation where
  shopify_id : Int
  name : String
  is_active : Bool
deriving DecidableEq

/-- Local InventoryLevel row, keyed by (variant, location) which is
represented by the natural triple (product_sid, variant_sid,
location_sid). -/
structure SLevel where
  product_sid : Int
  variant_sid : Int
  location_sid : Int
  available : Int
  last_synced : Int
  updated_at : Int
deriving DecidableEq

/-- The ShopifyStore columns sync_store_data touches. -/
structure StoreRow where
  id : Nat
  shop_url : String
  access_token : Option String
  sync_status : String
  last_sync_at : Option Int
deriving DecidableEq

structure SyncState where
  store : StoreRow
  products : List SProduct
  variants : List SVariant
  locations : List SLocation
  levels : List SLevel
deriving DecidableEq

inductive SyncResult where
  | success
  | error (message : String)
deriving DecidableEq

/-- Replace the first row matching the predicate by its image under f
(the row found by a Django get on a unique key, then saved). -/
def updateFirst {β : Type} (pred : β → Bool) (f : β → β) : List β → List β
  | [] => []
  | x :: xs => if pred x then f x :: xs else x :: updateFirst pred f xs

/-- One keyed write of the sync: Django update_or_create(key, defaults)
is upsert with f the defaults-update and mk the created row;
get_or_create is the same with f the identity. -/
structure UOp (κ β : Type) where
  k : κ
  f : β → β
  ins : β

/-- update_or_create / get_or_create on a table whose rows are keyed by
key: update the (unique) existing row, or append a freshly created one. -/
def applyUOp {κ β : Type} [DecidableEq κ] (key : β → κ) (l : List β)
    (op : UOp κ β) : List β :=
  if l.any (fun r => decide (key r = op.k)) then
    updateFirst (fun r => decide (key r = op.k)) op.f l
  else
    l ++ [op.ins]

def foldUOps {κ β : Type} [DecidableEq κ] (key : β → κ)
    (ops : List (UOp κ β)) (l : List β) : List β :=
  ops.foldl (applyUOp key) l

def pKey (r : SProduct) : Int := r.shopify_id

def vKey (r : SVariant) : Int × Int := (r.product_sid, r.shopify_id)

def locKey (r : SLocation) : Int := r.shopify_id

def lvKey (r : SLevel) : Int × Int × Int :=
  (r.product_sid, r.variant_sid, r.location_sid)

/-- The defaults dictionary of the Product update_or_create (sync_tasks.py
lines 76 to 90), applied to an existing row; saving also refreshes the
auto_now updated_at column. -/
def productUpd (now : Int) (p : RProduct) (r : SProduct) : SProduct :=
  { r with title := p.title, handle := p.handle, status := p.status,
           product_type := p.product_type, vendor := p.vendor,
           published_at := p.published_at,
           last_synced := now, updated_at := now }

/-- The row created by the Product update_or_create when the key is
absent: key plus defaults, the remaining columns at their model
defaults. -/
def productNew (now : Int) (p : RProduct) : SProduct :=
  { shopify_id := p.id, title := p.title, handle := p.handle,
    status := p.status, product_type := p.product_type, vendor := p.vendor,
    published_at := p.published_at,
    is_visible := true, hidden_at := none, scheduled_return := none,
    last_synced := now, updated_at := now }

/-- The conditionally assembled variant_defaults of sync_tasks.py lines
100 to 123: sku/barcode/compare_at_price enter the dictionary only when
present and truthy, position only when the attribute is present. -/
def variantUpd (now : Int) (v : RVariant) (r : SVariant) : SVariant :=
  { r with title := v.title, price := v.price,
           inventory_item_id := v.inventory_item_id,
           sku := if strTruthy v.sku then v.sku else r.sku,
           barcode := if strTruthy v.barcode then v.barcode else r.barcode,
           compare_at_price :=
             if intTruthy v.compare_at_price then v.compare_at_price
             else r.compare_at_price,
           position := v.position.getD r.position,
           updated_at := now }

/-- Created variant row: key plus the conditional defaults, missing
entries at their model defaults (sku/barcode/compare_at_price null,
position 1). -/
def variantNew (now : Int) (pid : Int) (v : RVariant) : SVariant :=
  { product_sid := pid, shopify_id := v.id, title := v.title,
    price := v.price, inventory_item_id := v.inventory_item_id,
    sku := if strTruthy v.sku then v.sku else none,
    barcode := if strTruthy v.barcode then v.barcode else none,
    compare_at_price :=
      if intTruthy v.compare_at_price then v.compare_at_price else none,
    position := v.position.getD 1,
    updated_at := now }

/-- InventoryLevel update_or_create defaults (lines 143 to 150):
available := level_data.available or 0, last_synced := now. -/
def levelUpd (now : Int) (ld : RLevel) (r : SLevel) : SLevel :=
  { r with available := ld.available.getD 0,
           last_synced := now, updated_at := now }

def levelNew (now : Int) (pid vid : Int) (ld : RLevel) : SLevel :=
  { product_sid := pid, variant_sid := vid, location_sid := ld.location_id,
    available := ld.available.getD 0, last_synced := now, updated_at := now }

/-- InventoryLocation.objects.get_or_create(store, shopify_id,
defaults={name: "Location {id}"}) (lines 137 to 141). -/
def locationNew (lid : Int) : SLocation :=
  { shopify_id := lid, name := ("Location ") ++ toString lid, is_active := true }

def pOp (now : Int) (p : RProduct) : UOp Int SProduct :=
  { k := p.id, f := productUpd now p, ins := productNew now p }

def vOp (now : Int) (pid : Int) (v : RVariant) : UOp (Int × Int) SVariant :=
  { k := (pid, v.id), f := variantUpd now v, ins := variantNew now pid v }

def locOp (lid : Int) : UOp Int SLocation :=
  { k := lid, f := fun r => r, ins := locationNew lid }

def lvOp (now : Int) (pid vid : Int) (ld : RLevel) : UOp (Int × Int × Int) SLevel :=
  { k := (pid, vid, ld.location_id), f := levelUpd now ld,
    ins := levelNew now pid vid ld }

/-- Processing of one fetched inventory level (sync_tasks.py lines 134 to
152): get_or_create the location, then update_or_create the level. -/
def syncLevel (now : Int) (pid vid : Int) (ld : RLevel) (s : SyncState) :
    SyncState :=
  let s := { s with locations := applyUOp locKey s.locations (locOp ld.location_id) }
  { s with levels := applyUOp lvKey s.levels (lvOp now pid vid ld) }

/-- Processing of one variant (lines 99 to 154): update_or_create the
variant, then fetch its inventory levels; a raising fetch is caught,
logged as a warning and skipped. -/
def syncVariant (now : Int) (cat : Catalog) (pid : Int) (v : RVariant)
    (s : SyncState) : SyncState :=
  let s := { s with variants := applyUOp vKey s.variants (vOp now pid v) }
  match fetchInventoryLevels cat v.inventory_item_id with
  | none => s
  | some ls => ls.foldl (fun s ld => syncLevel now pid v.id ld s) s

/-- Processing of one product (lines 74 to 160): update_or_create the
product, process each of its variants, then bump updated_at on this
product's variants that were not in the fetched list. -/
def syncProductOne (now : Int) (cat : Catalog) (p : RProduct) (s : SyncState) :
    SyncState :=
  let s := { s with products := applyUOp pKey s.products (pOp now p) }
  let s := p.variants.foldl (fun s v => syncVariant now cat p.id v s) s
  let bumped := s.variants.map (fun r =>
    if r.product_sid = p.id ∧ r.shopify_id ∉ p.variants.map (fun v => v.id) then
      { r with updated_at := now }
    else r)
  { s with variants := bumped }

/-- sync_tasks.py sync_store_data (lines 18 to 197) for one store against
one fetched catalog. An absent or empty access token marks the store
failed and returns an error before anything is fetched. Otherwise every
catalog product is processed, products of the store absent from the
catalog get their updated_at bumped, and the store is marked success
with a fresh last_sync_at. -/
def sync_store_data (cat : Catalog) (now : Int) (s : SyncState) :
    SyncState × SyncResult :=
  if strTruthy s.store.access_token = false then
    ({ s with store := { s.store with sync_status := ("failed") } },
     SyncResult.error ("Store has no access token"))
  else
    let s1 := cat.products.foldl (fun s p => syncProductOne now cat p s) s
    let bumped := s1.products.map (fun r =>
      if r.shopify_id ∉ cat.products.map (fun p => p.id) then
        { r with updated_at := now }
      else r)
    let s2 := { s1 with products := bumped }
    let st2 := { s2.store with sync_status := ("success"), last_sync_at := some now }
    ({ s2 with store := st2 }, SyncResult.success)

end Sync

namespace Sync

/-- Drop the two sync timestamps of a Product row (last_synced and the
auto_now updated_at), the only columns the claims exempt from equality. -/
def scrubP (r : SProduct) : SProduct := { r with last_synced := 0, updated_at := 0 }

/-- Drop the auto_now updated_at of a ProductVariant row. -/
def scrubV (r : SVariant) : SVariant := { r with updated_at := 0 }

/-- Drop the two sync timestamps of an InventoryLevel row. -/
def scrubL (r : SLevel) : SLevel := { r with last_synced := 0, updated_at := 0 }

/-- The Product upserts a sync run performs, in order. -/
def productOps (now : Int) (ps : List RProduct) : List (UOp Int SProduct) :=
  ps.map (pOp now)

/-- The ProductVariant upserts performed for one catalog product. -/
def variantOpsOf (now : Int) (p : RProduct) : List (UOp (Int × Int) SVariant) :=
  p.variants.map (vOp now p.id)

/-- The ProductVariant upserts of a whole run. -/
def variantOps (now : Int) : List RProduct → List (UOp (Int × Int) SVariant)
  | [] => []
  | p :: ps => variantOpsOf now p ++ variantOps now ps

/-- The InventoryLocation get_or_creates performed for one variant. -/
def locOpsOfVariant (cat : Catalog) (v : RVariant) : List (UOp Int SLocation) :=
  match fetchInventoryLevels cat v.inventory_item_id with
  | none => []
  | some ls => ls.map (fun ld => locOp ld.location_id)

def locOpsVs (cat : Catalog) : List RVariant → List (UOp Int SLocation)
  | [] => []
  | v :: vs => locOpsOfVariant cat v ++ locOpsVs cat vs

/-- The InventoryLocation get_or_creates of a whole run. -/
def locOps (cat : Catalog) : List RProduct → List (UOp Int SLocation)
  | [] => []
  | p :: ps => locOpsVs cat p.variants ++ locOps cat ps

/-- The InventoryLevel upserts performed for one variant. -/
def lvOpsOfVariant (now : Int) (cat : Catalog) (pid : Int) (v : RVariant) :
    List (UOp (Int × Int × Int) SLevel) :=
  match fetchInventoryLevels cat v.inventory_item_id with
  | none => []
  | some ls => ls.map (lvOp now pid v.id)

def lvOpsVs (now : Int) (cat : Catalog) (pid : Int) :
    List RVariant → List (UOp (Int × Int × Int) SLevel)
  | [] => []
  | v :: vs => lvOpsOfVariant now cat pid v ++ lvOpsVs now cat pid vs

/-- The InventoryLevel upserts of a whole run. -/
def lvOps (now : Int) (cat : Catalog) :
    List RProduct → List (UOp (Int × Int × Int) SLevel)
  | [] => []
  | p :: ps => lvOpsVs now cat p.id p.variants ++ lvOps now cat ps

/-- Key trace of an op list (used to state that the remote catalog has no
duplicate natural keys). -/
def opKeys {κ β : Type} (ops : List (UOp κ β)) : List κ := ops.map (fun o => o.k)

/-- Unique row found by key (the Django get on a unique column). -/
def keyFind {κ β : Type} [DecidableEq κ] (key : β → κ) (k : κ) (l : List β) :
    Option β :=
  l.find? (fun r => decide (key r = k))

/-- The catalog values for this op are already in place: the row at its
key exists and is a fixed point of the defaults-update. -/
def SatOp {κ β : Type} [DecidableEq κ] (key : β → κ) (op : UOp κ β)
    (l : List β) : Prop :=
  ∃ r, keyFind key op.k l = some r ∧ op.f r = r

end Sync

/-! Concrete fixtures used by the witnesses and the evaluation theorems. -/

def exRuleHide : Rule :=
  { id := 1, store_id := 1, name := ("Hide rule"), description := none
  , trigger_type := ("out_of_stock"), threshold := 0
  , action_type := ("hide_product"), delay_minutes := 0
  , auto_restore := false, restore_after_days := 0
  , product_type_filter := none, vendor_filter := none
  , tag_filter := none, collection_filter := none
  , is_active := true, priority := 0 }

/-- A rule whose action type is valid per Rule.ACTION_CHOICES but has no
branch in apply_rule. -/
def exRuleTag : Rule :=
  { exRuleHide with id := 2, name := ("Tag rule"), action_type := ("tag_product") }

def exProduct : Product :=
  { id := 1, store_id := 1, shopify_id := 11, title := ("Widget")
  , handle := ("widget"), product_type := some ("Shoes")
  , vendor := some ("Acme"), status := ("active"), published_at := none
  , last_synced := 0, is_visible := true, hidden_at := none
  , scheduled_return := none }

def exAppPending : RuleApplication :=
  { id := 1, rule_id := 1, product_id := 1, status := ("pending")
  , triggered_at := 0, scheduled_for := some 0, applied_at := none
  , restore_scheduled_for := none, notes := none }

def exAppApplied : RuleApplication :=
  { exAppPending with id := 2, status := ("applied") }

def exAppPendingTag : RuleApplication :=
  { exAppPending with id := 3, rule_id := 2 }

def exPkgState : PkgTasks.State :=
  { rules := [exRuleHide, exRuleTag], products := [exProduct]
  , applications := [exAppPending, exAppApplied, exAppPendingTag]
  , logs := [], queuedApply := [], queuedRestore := []
  , queuedNotifications := [], nextApplicationId := 4 }

/-- Same database but with no pending application for (rule 1, product 1). -/
def exPkgNoPending : PkgTasks.State :=
  { exPkgState with applications := [exAppApplied] }

def exFlatState : FlatTasks.State :=
  { rules := [exRuleHide, exRuleTag], products := [exProduct]
  , applications := [exAppPending, exAppApplied, exAppPendingTag]
  , logs := [], queuedNotifications := [] }

def exCatalog : Sync.Catalog :=
  { products :=
      [ { id := 11, title := ("Widget"), handle := ("widget")
        , status := ("active"), product_type := some ("Shoes")
        , vendor := some ("Acme"), published_at := none
        , variants :=
            [ { id := 21, title := ("Default"), price := 5
              , sku := some ("SK-1"), barcode := none
              , compare_at_price := none, position := some 1
              , inventory_item_id := 31 } ] } ]
  , inventory := [(31, some [ { location_id := 41, available := some 3 } ])] }

def exStore : Sync.StoreRow :=
  { id := 1, shop_url := ("x.myshopify.com"), access_token := some ("tok")
  , sync_status := ("pending"), last_sync_at := none }

def exSyncState : Sync.SyncState :=
  { store := exStore, products := [], variants := [], locations := [], levels := [] }

/-- The same store with its credential revoked (empty token). -/
def exSyncStateNoToken : Sync.SyncState :=
  { exSyncState with store := { exStore with access_token := some ("") } }

/-! Generic lemmas about keyed upserts, used for the reconciliation
idempotence claim. -/

namespace Sync

theorem any_eq_isSome_find? {β : Type} (p : β → Bool) :
    ∀ l : List β, l.any p = (l.find? p).isSome := by
  intro l
  induction l with
  | nil => rfl
  | cons x xs ih =>
    by_cases hx : p x
    · simp [hx]
    · simp [hx, ih]

theorem updateFirst_id {β : Type} (p : β → Bool) (f : β → β)
    (hf : ∀ x, f x = x) : ∀ l : List β, updateFirst p f l = l := by
  intro l
  induction l with
  | nil => rfl
  | cons x xs ih =>
    by_cases hx : p x
    · simp [updateFirst, hx, hf]
    · simp [updateFirst, hx, ih]

theorem updateFirst_of_fixed {β : Type} (p : β → Bool) (f : β → β) :
    ∀ (l : List β) (r : β), l.find? p = some r → f r = r →
      updateFirst p f l = l := by
  intro l
  induction l with
  | nil => intro r h _; simp at h
  | cons x xs ih =>
    intro r h hfix
    by_cases hx : p x
    · rw [List.find?_cons_of_pos _ hx] at h
      have hrx : r = x := by
        have := h
        simp at this
        exact this.symm
      subst hrx
      simp [updateFirst, hx, hfix]
    · rw [List.find?_cons_of_neg _ hx] at h
      simp [updateFirst, hx, ih r h hfix]

theorem find?_updateFirst_self {β : Type} (p : β → Bool) (f : β → β)
    (hp : ∀ x, p x = true → p (f x) = true) :
    ∀ (l : List β) (r : β), l.find? p = some r →
      (updateFirst p f l).find? p = some (f r) := by
  intro l
  induction l with
  | nil => intro r h; simp at h
  | cons x xs ih =>
    intro r h
    by_cases hx : p x
    · rw [List.find?_cons_of_pos _ hx] at h
      have hrx : r = x := by simp at h; exact h.symm
      subst hrx
      simp [updateFirst, hx, List.find?_cons_of_pos _ (hp r hx)]
    · rw [List.find?_cons_of_neg _ hx] at h
      simp [updateFirst, hx, List.find?_cons_of_neg _ hx, ih r h]

end Sync


namespace Sync

theorem keyFind_updateFirst_ne {κ β : Type} [DecidableEq κ] (key : β → κ)
    (f : β → β) (k k0 : κ) (hk : k ≠ k0)
    (hkf : ∀ x, key (f x) = key x) :
    ∀ l : List β,
      keyFind key k (updateFirst (fun x => decide (key x = k0)) f l)
        = keyFind key k l := by
  intro l
  induction l with
  | nil => rfl
  | cons x xs ih =>
    by_cases hx : key x = k0
    · have h1 : updateFirst (fun x => decide (key x = k0)) f (x :: xs)
          = f x :: xs := by
        simp [updateFirst, hx]
      rw [h1]
      unfold keyFind
      have hfk : ¬ ((key (f x) = k)) := by
        rw [hkf, hx]
        exact fun hc => hk hc.symm
      have hxk : ¬ ((key x = k)) := by
        rw [hx]
        exact fun hc => hk hc.symm
      rw [List.find?_cons_of_neg _ (by simpa using hfk),
          List.find?_cons_of_neg _ (by simpa using hxk)]
    · have h1 : updateFirst (fun x => decide (key x = k0)) f (x :: xs)
          = x :: updateFirst (fun x => decide (key x = k0)) f xs := by
        simp [updateFirst, hx]
      rw [h1]
      by_cases hxk : key x = k
      · unfold keyFind
        rw [List.find?_cons_of_pos _ (by simpa using hxk),
            List.find?_cons_of_pos _ (by simpa using hxk)]
      · unfold keyFind
        rw [List.find?_cons_of_neg _ (by simpa using hxk),
            List.find?_cons_of_neg _ (by simpa using hxk)]
        exact ih

theorem find?_eq_none_of_any_false {β : Type} (p : β → Bool) (l : List β)
    (h : ¬ (l.any p = true)) : l.find? p = none := by
  rw [any_eq_isSome_find?] at h
  cases hf : l.find? p
  · rfl
  · rw [hf] at h
    simp at h

theorem keyFind_applyUOp_ne {κ β : Type} [DecidableEq κ] (key : β → κ)
    (op : UOp κ β) (k : κ) (hk : k ≠ op.k)
    (hkf : ∀ x, key (op.f x) = key x) (hkm : key op.ins = op.k)
    (l : List β) :
    keyFind key k (applyUOp key l op) = keyFind key k l := by
  unfold applyUOp
  by_cases hany : l.any (fun r => decide (key r = op.k)) = true
  · rw [if_pos hany]
    exact keyFind_updateFirst_ne key op.f k op.k hk hkf l
  · rw [if_neg hany]
    unfold keyFind
    rw [List.find?_append]
    have hins : List.find? (fun r => decide (key r = k)) [op.ins] = none := by
      have : ¬ (key op.ins = k) := by
        rw [hkm]
        exact fun hc => hk hc.symm
      simp [this]
    rw [hins]
    cases List.find? (fun r => decide (key r = k)) l <;> rfl

theorem satOp_applyUOp_self {κ β : Type} [DecidableEq κ] (key : β → κ)
    (op : UOp κ β)
    (hkf : ∀ x, key (op.f x) = key x) (hkm : key op.ins = op.k)
    (hidem : ∀ x, op.f (op.f x) = op.f x) (hfix : op.f op.ins = op.ins)
    (l : List β) : SatOp key op (applyUOp key l op) := by
  unfold applyUOp
  by_cases hany : l.any (fun r => decide (key r = op.k)) = true
  · rw [if_pos hany]
    have hsome : (l.find? (fun r => decide (key r = op.k))).isSome := by
      rw [← any_eq_isSome_find?]
      exact hany
    obtain ⟨r, hr⟩ := Option.isSome_iff_exists.mp hsome
    refine ⟨op.f r, ?_, hidem r⟩
    unfold keyFind
    exact find?_updateFirst_self (fun x => decide (key x = op.k)) op.f
      (fun x hx => by
        simp only [decide_eq_true_eq] at hx ⊢
        rw [hkf]
        exact hx) l r hr
  · rw [if_neg hany]
    refine ⟨op.ins, ?_, hfix⟩
    unfold keyFind
    rw [List.find?_append,
        find?_eq_none_of_any_false (fun r => decide (key r = op.k)) l hany]
    simp [hkm]

theorem applyUOp_of_sat {κ β : Type} [DecidableEq κ] (key : β → κ)
    (op : UOp κ β) (l : List β) (h : SatOp key op l) :
    applyUOp key l op = l := by
  obtain ⟨r, hfind, hfix⟩ := h
  unfold keyFind at hfind
  unfold applyUOp
  have hany : l.any (fun r => decide (key r = op.k)) = true := by
    rw [any_eq_isSome_find?, hfind]
    rfl
  rw [if_pos hany]
  exact updateFirst_of_fixed _ op.f l r hfind hfix

theorem satOp_applyUOp_other {κ β : Type} [DecidableEq κ] (key : β → κ)
    (a b : UOp κ β) (l : List β) (hsat : SatOp key a l)
    (hkfb : ∀ x, key (b.f x) = key x) (hkmb : key b.ins = b.k)
    (hrel : a.k = b.k → ∀ x, b.f x = x) :
    SatOp key a (applyUOp key l b) := by
  by_cases hk : a.k = b.k
  · obtain ⟨r, hfind, hfix⟩ := hsat
    unfold applyUOp
    by_cases hany : l.any (fun r => decide (key r = b.k)) = true
    · rw [if_pos hany, updateFirst_id _ b.f (hrel hk) l]
      exact ⟨r, hfind, hfix⟩
    · rw [if_neg hany]
      refine ⟨r, ?_, hfix⟩
      unfold keyFind at hfind ⊢
      rw [List.find?_append, hfind]
      rfl
  · obtain ⟨r, hfind, hfix⟩ := hsat
    refine ⟨r, ?_, hfix⟩
    rw [keyFind_applyUOp_ne key b a.k hk hkfb hkmb l]
    exact hfind

theorem satOp_foldUOps {κ β : Type} [DecidableEq κ] (key : β → κ)
    (a : UOp κ β) :
    ∀ (ops : List (UOp κ β)) (l : List β), SatOp key a l →
      (∀ b ∈ ops, ∀ x, key (b.f x) = key x) →
      (∀ b ∈ ops, key b.ins = b.k) →
      (∀ b ∈ ops, a.k = b.k → ∀ x, b.f x = x) →
      SatOp key a (foldUOps key ops l) := by
  intro ops
  induction ops with
  | nil => intro l h _ _ _; exact h
  | cons b rest ih =>
    intro l h hkf hkm hrel
    have h1 : SatOp key a (applyUOp key l b) :=
      satOp_applyUOp_other key a b l h (hkf b (by simp)) (hkm b (by simp))
        (hrel b (by simp))
    exact ih (applyUOp key l b) h1
      (fun c hc => hkf c (by simp [hc]))
      (fun c hc => hkm c (by simp [hc]))
      (fun c hc => hrel c (by simp [hc]))

theorem foldUOps_establishes {κ β : Type} [DecidableEq κ] (key : β → κ) :
    ∀ (ops : List (UOp κ β)) (l : List β),
      (∀ b ∈ ops, ∀ x, key (b.f x) = key x) →
      (∀ b ∈ ops, key b.ins = b.k) →
      (∀ b ∈ ops, ∀ x, b.f (b.f x) = b.f x) →
      (∀ b ∈ ops, b.f b.ins = b.ins) →
      ops.Pairwise (fun a b => a.k = b.k → ∀ x, b.f x = x) →
      ∀ op ∈ ops, SatOp key op (foldUOps key ops l) := by
  intro ops
  induction ops with
  | nil => intro l _ _ _ _ _ op hop; simp at hop
  | cons b rest ih =>
    intro l hkf hkm hidem hfix hpw op hop
    have hpw' := List.pairwise_cons.mp hpw
    rcases List.mem_cons.mp hop with hop1 | hop1
    · subst hop1
      have h1 : SatOp key op (applyUOp key l op) :=
        satOp_applyUOp_self key op (hkf op (by simp)) (hkm op (by simp))
          (hidem op (by simp)) (hfix op (by simp)) l
      exact satOp_foldUOps key op rest (applyUOp key l op) h1
        (fun c hc => hkf c (by simp [hc]))
        (fun c hc => hkm c (by simp [hc]))
        (fun c hc => hpw'.1 c hc)
    · exact ih (applyUOp key l b)
        (fun c hc => hkf c (by simp [hc]))
        (fun c hc => hkm c (by simp [hc]))
        (fun c hc => hidem c (by simp [hc]))
        (fun c hc => hfix c (by simp [hc]))
        hpw'.2 op hop1

theorem foldUOps_of_satAll {κ β : Type} [DecidableEq κ] (key : β → κ) :
    ∀ (ops : List (UOp κ β)) (l : List β),
      (∀ op ∈ ops, SatOp key op l) → foldUOps key ops l = l := by
  intro ops
  induction ops with
  | nil => intro l _; rfl
  | cons b rest ih =>
    intro l h
    have h1 : applyUOp key l b = l := applyUOp_of_sat key b l (h b (by simp))
    show foldUOps key rest (applyUOp key l b) = l
    rw [h1]
    exact ih l (fun op hop => h op (by simp [hop]))

/-- Folding the same keyed upserts a second time is the identity: the
generic form of reconciliation idempotence. -/
theorem foldUOps_idem {κ β : Type} [DecidableEq κ] (key : β → κ)
    (ops : List (UOp κ β)) (l : List β)
    (hkf : ∀ b ∈ ops, ∀ x, key (b.f x) = key x)
    (hkm : ∀ b ∈ ops, key b.ins = b.k)
    (hidem : ∀ b ∈ ops, ∀ x, b.f (b.f x) = b.f x)
    (hfix : ∀ b ∈ ops, b.f b.ins = b.ins)
    (hpw : ops.Pairwise (fun a b => a.k = b.k → ∀ x, b.f x = x)) :
    foldUOps key ops (foldUOps key ops l) = foldUOps key ops l :=
  foldUOps_of_satAll key ops (foldUOps key ops l)
    (foldUOps_establishes key ops l hkf hkm hidem hfix hpw)

end Sync

namespace Sync

theorem map_updateFirst {β : Type} (g : β → β) (p : β → Bool) (f f' : β → β)
    (hp : ∀ x, p (g x) = p x) (hf : ∀ x, g (f x) = f' (g x)) :
    ∀ l : List β, (updateFirst p f l).map g = updateFirst p f' (l.map g) := by
  intro l
  induction l with
  | nil => rfl
  | cons x xs ih =>
    by_cases hx : p x
    · simp [updateFirst, hx, hp, hf]
    · simp [updateFirst, hx, hp, ih]

theorem map_applyUOp {κ β : Type} [DecidableEq κ] (key : β → κ) (g : β → β)
    (op op' : UOp κ β)
    (hk : ∀ x, key (g x) = key x) (hkk : op'.k = op.k)
    (hf : ∀ x, g (op.f x) = op'.f (g x)) (hins : g op.ins = op'.ins)
    (l : List β) :
    (applyUOp key l op).map g = applyUOp key (l.map g) op' := by
  unfold applyUOp
  have hanyeq : (l.map g).any (fun r => decide (key r = op'.k))
      = l.any (fun r => decide (key r = op.k)) := by
    rw [List.any_map]
    congr 1
    funext x
    simp [hk, hkk]
  by_cases hany : l.any (fun r => decide (key r = op.k)) = true
  · rw [if_pos hany, if_pos (by rw [hanyeq]; exact hany)]
    have := map_updateFirst g (fun r => decide (key r = op.k)) op.f op'.f
      (fun x => by simp [hk]) hf l
    rw [this]
    congr 1
    funext x
    simp [hkk]
  · rw [if_neg hany, if_neg (by rw [hanyeq]; exact hany)]
    simp [hins]

/-! Frame and shape lemmas for the sync loops: which table each loop
touches, and how each write is one keyed upsert. -/

theorem syncLevel_products (now : Int) (pid vid : Int) (ld : RLevel)
    (s : SyncState) : (syncLevel now pid vid ld s).products = s.products := rfl

theorem syncLevel_variants (now : Int) (pid vid : Int) (ld : RLevel)
    (s : SyncState) : (syncLevel now pid vid ld s).variants = s.variants := rfl

theorem syncLevel_locations (now : Int) (pid vid : Int) (ld : RLevel)
    (s : SyncState) :
    (syncLevel now pid vid ld s).locations
      = applyUOp locKey s.locations (locOp ld.location_id) := rfl

theorem syncLevel_levels (now : Int) (pid vid : Int) (ld : RLevel)
    (s : SyncState) :
    (syncLevel now pid vid ld s).levels
      = applyUOp lvKey s.levels (lvOp now pid vid ld) := rfl

theorem syncLevel_store (now : Int) (pid vid : Int) (ld : RLevel)
    (s : SyncState) : (syncLevel now pid vid ld s).store = s.store := rfl

theorem levelFold_products (now : Int) (pid vid : Int) :
    ∀ (ls : List RLevel) (s : SyncState),
      ((ls.foldl (fun s ld => syncLevel now pid vid ld s) s)).products
        = s.products := by
  intro ls
  induction ls with
  | nil => intro s; rfl
  | cons ld rest ih => intro s; exact ih (syncLevel now pid vid ld s)

theorem levelFold_variants (now : Int) (pid vid : Int) :
    ∀ (ls : List RLevel) (s : SyncState),
      ((ls.foldl (fun s ld => syncLevel now pid vid ld s) s)).variants
        = s.variants := by
  intro ls
  induction ls with
  | nil => intro s; rfl
  | cons ld rest ih => intro s; exact ih (syncLevel now pid vid ld s)

theorem levelFold_store (now : Int) (pid vid : Int) :
    ∀ (ls : List RLevel) (s : SyncState),
      ((ls.foldl (fun s ld => syncLevel now pid vid ld s) s)).store
        = s.store := by
  intro ls
  induction ls with
  | nil => intro s; rfl
  | cons ld rest ih => intro s; exact ih (syncLevel now pid vid ld s)

theorem levelFold_locations (now : Int) (pid vid : Int) :
    ∀ (ls : List RLevel) (s : SyncState),
      ((ls.foldl (fun s ld => syncLevel now pid vid ld s) s)).locations
        = foldUOps locKey (ls.map (fun ld => locOp ld.location_id)) s.locations := by
  intro ls
  induction ls with
  | nil => intro s; rfl
  | cons ld rest ih =>
    intro s
    rw [List.foldl_cons, ih (syncLevel now pid vid ld s)]
    rfl

theorem levelFold_levels (now : Int) (pid vid : Int) :
    ∀ (ls : List RLevel) (s : SyncState),
      ((ls.foldl (fun s ld => syncLevel now pid vid ld s) s)).levels
        = foldUOps lvKey (ls.map (lvOp now pid vid)) s.levels := by
  intro ls
  induction ls with
  | nil => intro s; rfl
  | cons ld rest ih =>
    intro s
    rw [List.foldl_cons, ih (syncLevel now pid vid ld s)]
    rfl

theorem syncVariant_products (now : Int) (cat : Catalog) (pid : Int)
    (v : RVariant) (s : SyncState) :
    (syncVariant now cat pid v s).products = s.products := by
  unfold syncVariant
  cases fetchInventoryLevels cat v.inventory_item_id with
  | none => rfl
  | some ls => exact levelFold_products now pid v.id ls _

theorem syncVariant_store (now : Int) (cat : Catalog) (pid : Int)
    (v : RVariant) (s : SyncState) :
    (syncVariant now cat pid v s).store = s.store := by
  unfold syncVariant
  cases fetchInventoryLevels cat v.inventory_item_id with
  | none => rfl
  | some ls => exact levelFold_store now pid v.id ls _

theorem syncVariant_variants (now : Int) (cat : Catalog) (pid : Int)
    (v : RVariant) (s : SyncState) :
    (syncVariant now cat pid v s).variants
      = applyUOp vKey s.variants (vOp now pid v) := by
  unfold syncVariant
  cases fetchInventoryLevels cat v.inventory_item_id with
  | none => rfl
  | some ls => exact levelFold_variants now pid v.id ls _

theorem syncVariant_locations (now : Int) (cat : Catalog) (pid : Int)
    (v : RVariant) (s : SyncState) :
    (syncVariant now cat pid v s).locations
      = foldUOps locKey (locOpsOfVariant cat v) s.locations := by
  unfold syncVariant locOpsOfVariant
  cases fetchInventoryLevels cat v.inventory_item_id with
  | none => rfl
  | some ls => exact levelFold_locations now pid v.id ls _

theorem syncVariant_levels (now : Int) (cat : Catalog) (pid : Int)
    (v : RVariant) (s : SyncState) :
    (syncVariant now cat pid v s).levels
      = foldUOps lvKey (lvOpsOfVariant now cat pid v) s.levels := by
  unfold syncVariant lvOpsOfVariant
  cases fetchInventoryLevels cat v.inventory_item_id with
  | none => rfl
  | some ls => exact levelFold_levels now pid v.id ls _

end Sync

namespace Sync

theorem map_congr_fun {α β : Type} (f g : α → β) (h : ∀ x, f x = g x) :
    ∀ l : List α, l.map f = l.map g := by
  intro l
  induction l with
  | nil => rfl
  | cons x xs ih => simp [h, ih]

theorem foldUOps_append {κ β : Type} [DecidableEq κ] (key : β → κ)
    (a b : List (UOp κ β)) (l : List β) :
    foldUOps key (a ++ b) l = foldUOps key b (foldUOps key a l) := by
  unfold foldUOps
  exact List.foldl_append _ _ a b

theorem pairwise_of_nodup_keys {κ β : Type} [DecidableEq κ]
    (ops : List (UOp κ β)) (h : (opKeys ops).Nodup) :
    ops.Pairwise (fun a b => a.k = b.k → ∀ x, b.f x = x) := by
  unfold opKeys at h
  have h2 : ops.Pairwise (fun a b => a.k ≠ b.k) := List.pairwise_map.mp h
  exact h2.imp (fun hne heq => absurd heq hne)

theorem pairwise_of_all_id {κ β : Type} (ops : List (UOp κ β))
    (h : ∀ b ∈ ops, ∀ x, b.f x = x) :
    ops.Pairwise (fun a b => a.k = b.k → ∀ x, b.f x = x) := by
  induction ops with
  | nil => exact List.Pairwise.nil
  | cons b rest ih =>
    refine List.Pairwise.cons ?_ (ih (fun c hc => h c (by simp [hc])))
    intro c hc _
    exact h c (by simp [hc])

/-! The catalog-derived op conditions: keys are preserved, created rows
carry their key, the defaults-update is idempotent and fixes the created
row. -/

theorem productUpd_key (now : Int) (p : RProduct) (r : SProduct) :
    pKey (productUpd now p r) = pKey r := rfl

theorem productNew_key (now : Int) (p : RProduct) :
    pKey (productNew now p) = p.id := rfl

theorem productUpd_idem (now : Int) (p : RProduct) (r : SProduct) :
    productUpd now p (productUpd now p r) = productUpd now p r := rfl

theorem productUpd_fix (now : Int) (p : RProduct) :
    productUpd now p (productNew now p) = productNew now p := rfl

theorem variantUpd_key (now : Int) (v : RVariant) (r : SVariant) :
    vKey (variantUpd now v r) = vKey r := rfl

theorem variantNew_key (now : Int) (pid : Int) (v : RVariant) :
    vKey (variantNew now pid v) = (pid, v.id) := rfl

theorem variantUpd_idem (now : Int) (v : RVariant) (r : SVariant) :
    variantUpd now v (variantUpd now v r) = variantUpd now v r := by
  cases hpos : v.position <;>
    by_cases h1 : strTruthy v.sku <;>
      by_cases h2 : strTruthy v.barcode <;>
        by_cases h3 : intTruthy v.compare_at_price <;>
          simp [variantUpd, h1, h2, h3, hpos]

theorem variantUpd_fix (now : Int) (pid : Int) (v : RVariant) :
    variantUpd now v (variantNew now pid v) = variantNew now pid v := by
  cases hpos : v.position <;>
    by_cases h1 : strTruthy v.sku <;>
      by_cases h2 : strTruthy v.barcode <;>
        by_cases h3 : intTruthy v.compare_at_price <;>
          simp [variantUpd, variantNew, h1, h2, h3, hpos]

theorem levelUpd_key (now : Int) (ld : RLevel) (r : SLevel) :
    lvKey (levelUpd now ld r) = lvKey r := rfl

theorem levelNew_key (now : Int) (pid vid : Int) (ld : RLevel) :
    lvKey (levelNew now pid vid ld) = (pid, vid, ld.location_id) := rfl

theorem levelUpd_idem (now : Int) (ld : RLevel) (r : SLevel) :
    levelUpd now ld (levelUpd now ld r) = levelUpd now ld r := rfl

theorem levelUpd_fix (now : Int) (pid vid : Int) (ld : RLevel) :
    levelUpd now ld (levelNew now pid vid ld) = levelNew now pid vid ld := rfl

/-! Every op in the catalog-derived op lists has one of the four shapes. -/

theorem mem_productOps {now : Int} {ps : List RProduct} {op : UOp Int SProduct}
    (h : op ∈ productOps now ps) : ∃ p, op = pOp now p := by
  unfold productOps at h
  obtain ⟨p, _, hp⟩ := List.mem_map.mp h
  exact ⟨p, hp.symm⟩

theorem mem_variantOps {now : Int} {op : UOp (Int × Int) SVariant} :
    ∀ {ps : List RProduct}, op ∈ variantOps now ps →
      ∃ pid v, op = vOp now pid v := by
  intro ps
  induction ps with
  | nil => intro h; simp [variantOps] at h
  | cons p rest ih =>
    intro h
    rcases List.mem_append.mp h with h1 | h1
    · obtain ⟨v, _, hv⟩ := List.mem_map.mp h1
      exact ⟨p.id, v, hv.symm⟩
    · exact ih h1

theorem mem_lvOpsOfVariant {now : Int} {cat : Catalog} {pid : Int}
    {v : RVariant} {op : UOp (Int × Int × Int) SLevel}
    (h : op ∈ lvOpsOfVariant now cat pid v) :
    ∃ vid ld, op = lvOp now pid vid ld := by
  unfold lvOpsOfVariant at h
  cases hf : fetchInventoryLevels cat v.inventory_item_id with
  | none => rw [hf] at h; simp at h
  | some ls =>
    rw [hf] at h
    obtain ⟨ld, _, hld⟩ := List.mem_map.mp h
    exact ⟨v.id, ld, hld.symm⟩

theorem mem_lvOpsVs {now : Int} {cat : Catalog} {pid : Int}
    {op : UOp (Int × Int × Int) SLevel} :
    ∀ {vs : List RVariant}, op ∈ lvOpsVs now cat pid vs →
      ∃ vid ld, op = lvOp now pid vid ld := by
  intro vs
  induction vs with
  | nil => intro h; simp [lvOpsVs] at h
  | cons v rest ih =>
    intro h
    rcases List.mem_append.mp h with h1 | h1
    · exact mem_lvOpsOfVariant h1
    · exact ih h1

theorem mem_lvOps {now : Int} {cat : Catalog}
    {op : UOp (Int × Int × Int) SLevel} :
    ∀ {ps : List RProduct}, op ∈ lvOps now cat ps →
      ∃ pid vid ld, op = lvOp now pid vid ld := by
  intro ps
  induction ps with
  | nil => intro h; simp [lvOps] at h
  | cons p rest ih =>
    intro h
    rcases List.mem_append.mp h with h1 | h1
    · obtain ⟨vid, ld, hop⟩ := mem_lvOpsVs h1
      exact ⟨p.id, vid, ld, hop⟩
    · exact ih h1

theorem mem_locOpsOfVariant {cat : Catalog} {v : RVariant}
    {op : UOp Int SLocation} (h : op ∈ locOpsOfVariant cat v) :
    ∃ lid, op = locOp lid := by
  unfold locOpsOfVariant at h
  cases hf : fetchInventoryLevels cat v.inventory_item_id with
  | none => rw [hf] at h; simp at h
  | some ls =>
    rw [hf] at h
    obtain ⟨ld, _, hld⟩ := List.mem_map.mp h
    exact ⟨ld.location_id, hld.symm⟩

theorem mem_locOpsVs {cat : Catalog} {op : UOp Int SLocation} :
    ∀ {vs : List RVariant}, op ∈ locOpsVs cat vs → ∃ lid, op = locOp lid := by
  intro vs
  induction vs with
  | nil => intro h; simp [locOpsVs] at h
  | cons v rest ih =>
    intro h
    rcases List.mem_append.mp h with h1 | h1
    · exact mem_locOpsOfVariant h1
    · exact ih h1

theorem mem_locOps {cat : Catalog} {op : UOp Int SLocation} :
    ∀ {ps : List RProduct}, op ∈ locOps cat ps → ∃ lid, op = locOp lid := by
  intro ps
  induction ps with
  | nil => intro h; simp [locOps] at h
  | cons p rest ih =>
    intro h
    rcases List.mem_append.mp h with h1 | h1
    · exact mem_locOpsVs h1
    · exact ih h1

end Sync

namespace Sync

/-! Scrubbing commutes with the writes: discarding the two sync
timestamps of the result of a write equals performing the timestamp-free
write (now = 0) on the scrubbed row. -/

theorem scrubP_productUpd (now : Int) (p : RProduct) (r : SProduct) :
    scrubP (productUpd now p r) = productUpd 0 p (scrubP r) := rfl

theorem scrubP_productNew (now : Int) (p : RProduct) :
    scrubP (productNew now p) = productNew 0 p := rfl

theorem scrubV_variantUpd (now : Int) (v : RVariant) (r : SVariant) :
    scrubV (variantUpd now v r) = variantUpd 0 v (scrubV r) := rfl

theorem scrubV_variantNew (now : Int) (pid : Int) (v : RVariant) :
    scrubV (variantNew now pid v) = variantNew 0 pid v := rfl

theorem scrubL_levelUpd (now : Int) (ld : RLevel) (r : SLevel) :
    scrubL (levelUpd now ld r) = levelUpd 0 ld (scrubL r) := rfl

theorem scrubL_levelNew (now : Int) (pid vid : Int) (ld : RLevel) :
    scrubL (levelNew now pid vid ld) = levelNew 0 pid vid ld := rfl

theorem pKey_scrubP (r : SProduct) : pKey (scrubP r) = pKey r := rfl

theorem vKey_scrubV (r : SVariant) : vKey (scrubV r) = vKey r := rfl

theorem lvKey_scrubL (r : SLevel) : lvKey (scrubL r) = lvKey r := rfl

theorem map_scrubP_applyPOp (now : Int) (p : RProduct) (l : List SProduct) :
    (applyUOp pKey l (pOp now p)).map scrubP
      = applyUOp pKey (l.map scrubP) (pOp 0 p) :=
  map_applyUOp pKey scrubP (pOp now p) (pOp 0 p) pKey_scrubP rfl
    (scrubP_productUpd now p) (scrubP_productNew now p) l

theorem map_scrubV_applyVOp (now : Int) (pid : Int) (v : RVariant)
    (l : List SVariant) :
    (applyUOp vKey l (vOp now pid v)).map scrubV
      = applyUOp vKey (l.map scrubV) (vOp 0 pid v) :=
  map_applyUOp vKey scrubV (vOp now pid v) (vOp 0 pid v) vKey_scrubV rfl
    (scrubV_variantUpd now v) (scrubV_variantNew now pid v) l

theorem map_scrubL_applyLvOp (now : Int) (pid vid : Int) (ld : RLevel)
    (l : List SLevel) :
    (applyUOp lvKey l (lvOp now pid vid ld)).map scrubL
      = applyUOp lvKey (l.map scrubL) (lvOp 0 pid vid ld) :=
  map_applyUOp lvKey scrubL (lvOp now pid vid ld) (lvOp 0 pid vid ld)
    lvKey_scrubL rfl (scrubL_levelUpd now ld) (scrubL_levelNew now pid vid ld) l

theorem map_scrubL_fold_ls (now : Int) (pid vid : Int) :
    ∀ (ls : List RLevel) (l : List SLevel),
      (foldUOps lvKey (ls.map (lvOp now pid vid)) l).map scrubL
        = foldUOps lvKey (ls.map (lvOp 0 pid vid)) (l.map scrubL) := by
  intro ls
  induction ls with
  | nil => intro l; rfl
  | cons ld rest ih =>
    intro l
    show (foldUOps lvKey (rest.map (lvOp now pid vid))
            (applyUOp lvKey l (lvOp now pid vid ld))).map scrubL = _
    rw [ih (applyUOp lvKey l (lvOp now pid vid ld)),
        map_scrubL_applyLvOp now pid vid ld l]
    rfl

theorem map_scrubL_fold_lvOpsOfVariant (now : Int) (cat : Catalog)
    (pid : Int) (v : RVariant) (l : List SLevel) :
    (foldUOps lvKey (lvOpsOfVariant now cat pid v) l).map scrubL
      = foldUOps lvKey (lvOpsOfVariant 0 cat pid v) (l.map scrubL) := by
  unfold lvOpsOfVariant
  cases fetchInventoryLevels cat v.inventory_item_id with
  | none => rfl
  | some ls => exact map_scrubL_fold_ls now pid v.id ls l

theorem map_scrubL_fold_lvOpsVs (now : Int) (cat : Catalog) (pid : Int) :
    ∀ (vs : List RVariant) (l : List SLevel),
      (foldUOps lvKey (lvOpsVs now cat pid vs) l).map scrubL
        = foldUOps lvKey (lvOpsVs 0 cat pid vs) (l.map scrubL) := by
  intro vs
  induction vs with
  | nil => intro l; rfl
  | cons v rest ih =>
    intro l
    show (foldUOps lvKey (lvOpsOfVariant now cat pid v ++ lvOpsVs now cat pid rest) l).map scrubL = _
    rw [foldUOps_append, ih, map_scrubL_fold_lvOpsOfVariant]
    show _ = foldUOps lvKey (lvOpsOfVariant 0 cat pid v ++ lvOpsVs 0 cat pid rest) (l.map scrubL)
    rw [foldUOps_append]

theorem map_scrubL_fold_lvOps (now : Int) (cat : Catalog) :
    ∀ (ps : List RProduct) (l : List SLevel),
      (foldUOps lvKey (lvOps now cat ps) l).map scrubL
        = foldUOps lvKey (lvOps 0 cat ps) (l.map scrubL) := by
  intro ps
  induction ps with
  | nil => intro l; rfl
  | cons p rest ih =>
    intro l
    show (foldUOps lvKey (lvOpsVs now cat p.id p.variants ++ lvOps now cat rest) l).map scrubL = _
    rw [foldUOps_append, ih, map_scrubL_fold_lvOpsVs]
    show _ = foldUOps lvKey (lvOpsVs 0 cat p.id p.variants ++ lvOps 0 cat rest) (l.map scrubL)
    rw [foldUOps_append]

theorem map_scrubV_fold_variantOpsOf (now : Int) (p : RProduct) :
    ∀ (vs : List RVariant) (l : List SVariant),
      (foldUOps vKey (vs.map (vOp now p.id)) l).map scrubV
        = foldUOps vKey (vs.map (vOp 0 p.id)) (l.map scrubV) := by
  intro vs
  induction vs with
  | nil => intro l; rfl
  | cons v rest ih =>
    intro l
    show (foldUOps vKey (rest.map (vOp now p.id))
            (applyUOp vKey l (vOp now p.id v))).map scrubV = _
    rw [ih (applyUOp vKey l (vOp now p.id v)), map_scrubV_applyVOp now p.id v l]
    rfl

end Sync

namespace Sync

theorem variantFold_products (now : Int) (cat : Catalog) (pid : Int) :
    ∀ (vs : List RVariant) (s : SyncState),
      ((vs.foldl (fun s v => syncVariant now cat pid v s) s)).products
        = s.products := by
  intro vs
  induction vs with
  | nil => intro s; rfl
  | cons v rest ih =>
    intro s
    rw [List.foldl_cons, ih, syncVariant_products]

theorem variantFold_store (now : Int) (cat : Catalog) (pid : Int) :
    ∀ (vs : List RVariant) (s : SyncState),
      ((vs.foldl (fun s v => syncVariant now cat pid v s) s)).store
        = s.store := by
  intro vs
  induction vs with
  | nil => intro s; rfl
  | cons v rest ih =>
    intro s
    rw [List.foldl_cons, ih, syncVariant_store]

theorem variantFold_variants (now : Int) (cat : Catalog) (pid : Int) :
    ∀ (vs : List RVariant) (s : SyncState),
      ((vs.foldl (fun s v => syncVariant now cat pid v s) s)).variants
        = foldUOps vKey (vs.map (vOp now pid)) s.variants := by
  intro vs
  induction vs with
  | nil => intro s; rfl
  | cons v rest ih =>
    intro s
    rw [List.foldl_cons, ih, syncVariant_variants]
    rfl

theorem variantFold_locations (now : Int) (cat : Catalog) (pid : Int) :
    ∀ (vs : List RVariant) (s : SyncState),
      ((vs.foldl (fun s v => syncVariant now cat pid v s) s)).locations
        = foldUOps locKey (locOpsVs cat vs) s.locations := by
  intro vs
  induction vs with
  | nil => intro s; rfl
  | cons v rest ih =>
    intro s
    rw [List.foldl_cons, ih, syncVariant_locations]
    show _ = foldUOps locKey (locOpsOfVariant cat v ++ locOpsVs cat rest) s.locations
    rw [foldUOps_append]

theorem variantFold_levels (now : Int) (cat : Catalog) (pid : Int) :
    ∀ (vs : List RVariant) (s : SyncState),
      ((vs.foldl (fun s v => syncVariant now cat pid v s) s)).levels
        = foldUOps lvKey (lvOpsVs now cat pid vs) s.levels := by
  intro vs
  induction vs with
  | nil => intro s; rfl
  | cons v rest ih =>
    intro s
    rw [List.foldl_cons, ih, syncVariant_levels]
    show _ = foldUOps lvKey (lvOpsOfVariant now cat pid v ++ lvOpsVs now cat pid rest) s.levels
    rw [foldUOps_append]

theorem syncProductOne_products (now : Int) (cat : Catalog) (p : RProduct)
    (s : SyncState) :
    (syncProductOne now cat p s).products
      = applyUOp pKey s.products (pOp now p) := by
  unfold syncProductOne
  rw [variantFold_products]

theorem syncProductOne_store (now : Int) (cat : Catalog) (p : RProduct)
    (s : SyncState) :
    (syncProductOne now cat p s).store = s.store := by
  unfold syncProductOne
  rw [variantFold_store]

theorem syncProductOne_locations (now : Int) (cat : Catalog) (p : RProduct)
    (s : SyncState) :
    (syncProductOne now cat p s).locations
      = foldUOps locKey (locOpsVs cat p.variants) s.locations := by
  unfold syncProductOne
  rw [variantFold_locations]

theorem syncProductOne_levels (now : Int) (cat : Catalog) (p : RProduct)
    (s : SyncState) :
    (syncProductOne now cat p s).levels
      = foldUOps lvKey (lvOpsVs now cat p.id p.variants) s.levels := by
  unfold syncProductOne
  rw [variantFold_levels]

theorem scrubV_bump (now : Int) (p : RProduct) (r : SVariant) :
    scrubV (if r.product_sid = p.id ∧ r.shopify_id ∉ p.variants.map (fun v => v.id)
            then { r with updated_at := now } else r) = scrubV r := by
  split <;> rfl

theorem syncProductOne_variants_scrub (now : Int) (cat : Catalog)
    (p : RProduct) (s : SyncState) :
    ((syncProductOne now cat p s).variants).map scrubV
      = foldUOps vKey (variantOpsOf 0 p) ((s.variants).map scrubV) := by
  unfold syncProductOne
  rw [List.map_map]
  have hbump :
      ((p.variants.foldl (fun s v => syncVariant now cat p.id v s)
          { s with products := applyUOp pKey s.products (pOp now p) }).variants).map
        (scrubV ∘ fun r =>
          if r.product_sid = p.id ∧ r.shopify_id ∉ p.variants.map (fun v => v.id)
          then { r with updated_at := now } else r)
        = ((p.variants.foldl (fun s v => syncVariant now cat p.id v s)
            { s with products := applyUOp pKey s.products (pOp now p) }).variants).map
          scrubV :=
    map_congr_fun _ _ (fun r => scrubV_bump now p r) _
  rw [hbump, variantFold_variants]
  show (foldUOps vKey (p.variants.map (vOp now p.id)) s.variants).map scrubV = _
  rw [map_scrubV_fold_variantOpsOf now p p.variants s.variants]
  rfl

theorem productFold_products_scrub (now : Int) (cat : Catalog) :
    ∀ (ps : List RProduct) (s : SyncState),
      ((ps.foldl (fun s p => syncProductOne now cat p s) s)).products.map scrubP
        = foldUOps pKey (productOps 0 ps) ((s.products).map scrubP) := by
  intro ps
  induction ps with
  | nil => intro s; rfl
  | cons p rest ih =>
    intro s
    rw [List.foldl_cons, ih, syncProductOne_products,
        map_scrubP_applyPOp now p s.products]
    rfl

theorem productFold_variants_scrub (now : Int) (cat : Catalog) :
    ∀ (ps : List RProduct) (s : SyncState),
      ((ps.foldl (fun s p => syncProductOne now cat p s) s)).variants.map scrubV
        = foldUOps vKey (variantOps 0 ps) ((s.variants).map scrubV) := by
  intro ps
  induction ps with
  | nil => intro s; rfl
  | cons p rest ih =>
    intro s
    rw [List.foldl_cons, ih, syncProductOne_variants_scrub]
    show _ = foldUOps vKey (variantOpsOf 0 p ++ variantOps 0 rest) ((s.variants).map scrubV)
    rw [foldUOps_append]

theorem productFold_locations (now : Int) (cat : Catalog) :
    ∀ (ps : List RProduct) (s : SyncState),
      ((ps.foldl (fun s p => syncProductOne now cat p s) s)).locations
        = foldUOps locKey (locOps cat ps) s.locations := by
  intro ps
  induction ps with
  | nil => intro s; rfl
  | cons p rest ih =>
    intro s
    rw [List.foldl_cons, ih, syncProductOne_locations]
    show _ = foldUOps locKey (locOpsVs cat p.variants ++ locOps cat rest) s.locations
    rw [foldUOps_append]

theorem productFold_levels_scrub (now : Int) (cat : Catalog) :
    ∀ (ps : List RProduct) (s : SyncState),
      ((ps.foldl (fun s p => syncProductOne now cat p s) s)).levels.map scrubL
        = foldUOps lvKey (lvOps 0 cat ps) ((s.levels).map scrubL) := by
  intro ps
  induction ps with
  | nil => intro s; rfl
  | cons p rest ih =>
    intro s
    rw [List.foldl_cons, ih, syncProductOne_levels,
        map_scrubL_fold_lvOpsVs now cat p.id p.variants s.levels]
    show _ = foldUOps lvKey (lvOpsVs 0 cat p.id p.variants ++ lvOps 0 cat rest) ((s.levels).map scrubL)
    rw [foldUOps_append]

theorem productFold_store (now : Int) (cat : Catalog) :
    ∀ (ps : List RProduct) (s : SyncState),
      ((ps.foldl (fun s p => syncProductOne now cat p s) s)).store = s.store := by
  intro ps
  induction ps with
  | nil => intro s; rfl
  | cons p rest ih =>
    intro s
    rw [List.foldl_cons, ih, syncProductOne_store]

end Sync

namespace Sync

theorem scrubP_bump (now : Int) (cat : Catalog) (r : SProduct) :
    scrubP (if r.shopify_id ∉ cat.products.map (fun p => p.id)
            then { r with updated_at := now } else r) = scrubP r := by
  split <;> rfl

theorem sync_failed_of_blank_token (cat : Catalog) (now : Int) (s : SyncState)
    (htok : strTruthy s.store.access_token = false) :
    sync_store_data cat now s
      = ({ s with store := { s.store with sync_status := ("failed") } },
         SyncResult.error ("Store has no access token")) := by
  unfold sync_store_data
  rw [if_pos htok]

theorem sync_products_eq (cat : Catalog) (now : Int) (s : SyncState)
    (htok : strTruthy s.store.access_token = true) :
    (sync_store_data cat now s).1.products
      = ((cat.products.foldl (fun s p => syncProductOne now cat p s) s).products).map
          (fun r => if r.shopify_id ∉ cat.products.map (fun p => p.id)
                    then { r with updated_at := now } else r) := by
  unfold sync_store_data
  rw [if_neg (by rw [htok]; exact fun hc => Bool.noConfusion hc)]

theorem sync_variants_eq (cat : Catalog) (now : Int) (s : SyncState)
    (htok : strTruthy s.store.access_token = true) :
    (sync_store_data cat now s).1.variants
      = (cat.products.foldl (fun s p => syncProductOne now cat p s) s).variants := by
  unfold sync_store_data
  rw [if_neg (by rw [htok]; exact fun hc => Bool.noConfusion hc)]

theorem sync_locations_raw (cat : Catalog) (now : Int) (s : SyncState)
    (htok : strTruthy s.store.access_token = true) :
    (sync_store_data cat now s).1.locations
      = (cat.products.foldl (fun s p => syncProductOne now cat p s) s).locations := by
  unfold sync_store_data
  rw [if_neg (by rw [htok]; exact fun hc => Bool.noConfusion hc)]

theorem sync_levels_eq (cat : Catalog) (now : Int) (s : SyncState)
    (htok : strTruthy s.store.access_token = true) :
    (sync_store_data cat now s).1.levels
      = (cat.products.foldl (fun s p => syncProductOne now cat p s) s).levels := by
  unfold sync_store_data
  rw [if_neg (by rw [htok]; exact fun hc => Bool.noConfusion hc)]

theorem sync_store_ok (cat : Catalog) (now : Int) (s : SyncState)
    (htok : strTruthy s.store.access_token = true) :
    (sync_store_data cat now s).1.store
      = { (cat.products.foldl (fun s p => syncProductOne now cat p s) s).store
          with sync_status := ("success"), last_sync_at := some now } := by
  unfold sync_store_data
  rw [if_neg (by rw [htok]; exact fun hc => Bool.noConfusion hc)]

theorem sync_products_scrub (cat : Catalog) (now : Int) (s : SyncState)
    (htok : strTruthy s.store.access_token = true) :
    ((sync_store_data cat now s).1.products).map scrubP
      = foldUOps pKey (productOps 0 cat.products) ((s.products).map scrubP) := by
  rw [sync_products_eq cat now s htok, List.map_map, Function.comp_def,
      map_congr_fun _ _ (fun r => scrubP_bump now cat r)
        ((cat.products.foldl (fun s p => syncProductOne now cat p s) s).products),
      productFold_products_scrub now cat cat.products s]

theorem sync_variants_scrub (cat : Catalog) (now : Int) (s : SyncState)
    (htok : strTruthy s.store.access_token = true) :
    ((sync_store_data cat now s).1.variants).map scrubV
      = foldUOps vKey (variantOps 0 cat.products) ((s.variants).map scrubV) := by
  rw [sync_variants_eq cat now s htok]
  exact productFold_variants_scrub now cat cat.products s

theorem sync_locations_eq (cat : Catalog) (now : Int) (s : SyncState)
    (htok : strTruthy s.store.access_token = true) :
    (sync_store_data cat now s).1.locations
      = foldUOps locKey (locOps cat cat.products) s.locations := by
  rw [sync_locations_raw cat now s htok]
  exact productFold_locations now cat cat.products s

theorem sync_levels_scrub (cat : Catalog) (now : Int) (s : SyncState)
    (htok : strTruthy s.store.access_token = true) :
    ((sync_store_data cat now s).1.levels).map scrubL
      = foldUOps lvKey (lvOps 0 cat cat.products) ((s.levels).map scrubL) := by
  rw [sync_levels_eq cat now s htok]
  exact productFold_levels_scrub now cat cat.products s

theorem sync_token (cat : Catalog) (now : Int) (s : SyncState) :
    (sync_store_data cat now s).1.store.access_token
      = s.store.access_token := by
  by_cases htok : strTruthy s.store.access_token = true
  · rw [sync_store_ok cat now s htok]
    show ((cat.products.foldl (fun s p => syncProductOne now cat p s) s)).store.access_token = _
    rw [productFold_store]
  · have hfalse : strTruthy s.store.access_token = false := by
      cases h : strTruthy s.store.access_token
      · rfl
      · exact absurd h htok
    rw [sync_failed_of_blank_token cat now s hfalse]

theorem productOps_idem (ps : List RProduct) (l : List SProduct)
    (h : (opKeys (productOps 0 ps)).Nodup) :
    foldUOps pKey (productOps 0 ps) (foldUOps pKey (productOps 0 ps) l)
      = foldUOps pKey (productOps 0 ps) l :=
  foldUOps_idem pKey _ l
    (fun b hb x => by obtain ⟨p, rfl⟩ := mem_productOps hb; rfl)
    (fun b hb => by obtain ⟨p, rfl⟩ := mem_productOps hb; rfl)
    (fun b hb x => by
      obtain ⟨p, rfl⟩ := mem_productOps hb
      exact productUpd_idem 0 p x)
    (fun b hb => by
      obtain ⟨p, rfl⟩ := mem_productOps hb
      exact productUpd_fix 0 p)
    (pairwise_of_nodup_keys _ h)

theorem variantOps_idem (ps : List RProduct) (l : List SVariant)
    (h : (opKeys (variantOps 0 ps)).Nodup) :
    foldUOps vKey (variantOps 0 ps) (foldUOps vKey (variantOps 0 ps) l)
      = foldUOps vKey (variantOps 0 ps) l :=
  foldUOps_idem vKey _ l
    (fun b hb x => by obtain ⟨pid, v, rfl⟩ := mem_variantOps hb; rfl)
    (fun b hb => by obtain ⟨pid, v, rfl⟩ := mem_variantOps hb; rfl)
    (fun b hb x => by
      obtain ⟨pid, v, rfl⟩ := mem_variantOps hb
      exact variantUpd_idem 0 v x)
    (fun b hb => by
      obtain ⟨pid, v, rfl⟩ := mem_variantOps hb
      exact variantUpd_fix 0 pid v)
    (pairwise_of_nodup_keys _ h)

theorem lvOps_idem (cat : Catalog) (ps : List RProduct) (l : List SLevel)
    (h : (opKeys (lvOps 0 cat ps)).Nodup) :
    foldUOps lvKey (lvOps 0 cat ps) (foldUOps lvKey (lvOps 0 cat ps) l)
      = foldUOps lvKey (lvOps 0 cat ps) l :=
  foldUOps_idem lvKey _ l
    (fun b hb x => by obtain ⟨pid, vid, ld, rfl⟩ := mem_lvOps hb; rfl)
    (fun b hb => by obtain ⟨pid, vid, ld, rfl⟩ := mem_lvOps hb; rfl)
    (fun b hb x => by
      obtain ⟨pid, vid, ld, rfl⟩ := mem_lvOps hb
      exact levelUpd_idem 0 ld x)
    (fun b hb => by
      obtain ⟨pid, vid, ld, rfl⟩ := mem_lvOps hb
      exact levelUpd_fix 0 pid vid ld)
    (pairwise_of_nodup_keys _ h)

theorem locOps_idem (cat : Catalog) (ps : List RProduct) (l : List SLocation) :
    foldUOps locKey (locOps cat ps) (foldUOps locKey (locOps cat ps) l)
      = foldUOps locKey (locOps cat ps) l :=
  foldUOps_idem locKey _ l
    (fun b hb x => by obtain ⟨lid, rfl⟩ := mem_locOps hb; rfl)
    (fun b hb => by obtain ⟨lid, rfl⟩ := mem_locOps hb; rfl)
    (fun b hb x => by obtain ⟨lid, rfl⟩ := mem_locOps hb; rfl)
    (fun b hb => by obtain ⟨lid, rfl⟩ := mem_locOps hb; rfl)
    (pairwise_of_all_id _ (fun b hb x => by obtain ⟨lid, rfl⟩ := mem_locOps hb; rfl))

end Sync

/-! Claim theorems. -/

/-- Claim C1: the spec says schedule_rule_application(r, p) creates at
most one pending RuleApplication per (rule, product) and that a second
call while the first one is still pending creates no new record and is a
no-op. In the live scheduler (apps/inventory/tasks/rule_tasks.py) the
dedup branch is indeed a pure no-op (second conjunct), but the creation
branch passes the keyword scheduled_at to RuleApplication.objects.create
while the model column is named scheduled_for, so the first call raises
TypeError and never creates the pending row: evaluated on a database with
no pending application for the pair, scheduling crashes instead of
creating (first conjunct). -/
theorem c1_schedule_rule_application_create_crashes :
    PkgTasks.schedule_rule_application exRuleHide 1 0 exPkgNoPending
      = Except.error (PyExn.typeError ("RuleApplication") ("scheduled_at"))
    ∧ PkgTasks.schedule_rule_application exRuleHide 1 7 exPkgState
      = Except.ok exPkgState := by
  exact ⟨rfl, rfl⟩

/-- Claim C2: apply_rule invoked on a RuleApplication whose status is not
pending returns a skipped result and changes nothing: the whole state
(applications, products, logs, queued notifications) is returned intact.
Proved for both cited implementations: the package module
apps/inventory/tasks/rule_tasks.py and the flat module
apps/inventory/tasks.py, for any remote outcome. -/
theorem c2_apply_rule_skips_non_pending
    (sp : PkgTasks.State) (sf : FlatTasks.State) (i j : Nat)
    (now1 now2 : Int) (remoteOk : Bool) (ap af : RuleApplication)
    (hp : PkgTasks.findApplication sp i = some ap)
    (hps : ap.status ≠ ("pending"))
    (hf : sf.applications.find? (fun a => decide (a.id = j)) = some af)
    (hfs : af.status ≠ ("pending")) :
    PkgTasks.apply_rule i now1 sp
      = (sp, TaskResult.skipped (("Status is ") ++ ap.status))
    ∧ FlatTasks.apply_rule j now2 remoteOk sf
      = (sf, TaskResult.skipped (("Rule already in status: ") ++ af.status)) := by
  constructor
  · unfold PkgTasks.apply_rule
    rw [hp]
    simp [hps]
  · unfold FlatTasks.apply_rule
    rw [hf]
    simp [hfs]

/-- Witness for C2 at a concrete database whose application 2 is already
applied. -/
theorem c2_apply_rule_skips_non_pending_witness :
    (PkgTasks.findApplication exPkgState 2 = some exAppApplied
      ∧ exAppApplied.status ≠ ("pending")
      ∧ exFlatState.applications.find? (fun a => decide (a.id = 2)) = some exAppApplied
      ∧ exAppApplied.status ≠ ("pending"))
    ∧ (PkgTasks.apply_rule 2 5 exPkgState
        = (exPkgState, TaskResult.skipped (("Status is ") ++ exAppApplied.status))
       ∧ FlatTasks.apply_rule 2 6 true exFlatState
        = (exFlatState, TaskResult.skipped (("Rule already in status: ") ++ exAppApplied.status))) :=
  ⟨⟨by decide, by decide, by decide, by decide⟩,
   c2_apply_rule_skips_non_pending exPkgState exFlatState 2 2 5 6 true
     exAppApplied exAppApplied (by decide) (by decide) (by decide) (by decide)⟩

/-- Claim C3: the spec says that when a step of the apply transition
fails, the RuleApplication is marked failed while the product visibility
is untouched. In the live apply_rule (rule_tasks.py) the transition is
atomic, and every run that passes the guard fails, because after the
action branch the code evaluates rule.send_notification, which is not a
Rule column, raising AttributeError: the transaction rolls back, the
product is untouched (all-or-nothing holds) but the application is left
pending, never failed. Evaluated at a concrete pending hide_product
application: the state comes back identical and the status is still
pending. -/
theorem c3_apply_rule_failure_leaves_pending :
    PkgTasks.apply_rule 1 5 exPkgState
      = (exPkgState,
         TaskResult.error (pyMessage (PyExn.attributeError ("Rule") ("send_notification"))))
    ∧ ((PkgTasks.apply_rule 1 5 exPkgState).1.applications.find?
          (fun a => decide (a.id = 1))).map (fun a => a.status)
      = some ("pending") := by
  exact ⟨rfl, rfl⟩

/-- Claim C4: the spec says the restore transition on an applied
RuleApplication makes the product visible, clears the timestamps, writes
one log row and flips the status to reversed, and skips any other
status. The guard half holds (second conjunct). The applied half never
happens: restore_product (rule_tasks.py) sets status to restored, a
value outside STATUS_CHOICES, and then calls
save(update_fields=[status, restored_at]) although RuleApplication has
no restored_at column; Django raises ValueError, the transaction rolls
back, and restore returns an error with nothing changed (first
conjunct, evaluated on application 2 which is applied). -/
theorem c4_restore_product_crashes_on_applied :
    PkgTasks.restore_product 2 9 exPkgState
      = (exPkgState,
         TaskResult.error ("update_fields restored_at is not a RuleApplication field"))
    ∧ PkgTasks.restore_product 1 9 exPkgState
      = (exPkgState, TaskResult.skipped (("Status is ") ++ ("pending"))) := by
  exact ⟨rfl, rfl⟩

/-- Claim C5: the spec says an unsupported action type marks the
application failed with an explanatory note and returns an error. The
live apply_rule has no unsupported-action branch at all: a pending
application for a tag_product rule falls through both action branches,
is marked applied inside the transaction, and then the
rule.send_notification access raises AttributeError, rolling everything
back. The call does return an error without raising, but the
application is left pending with no note, neither failed nor applied. -/
theorem c5_apply_rule_unsupported_action_not_marked_failed :
    PkgTasks.apply_rule 3 5 exPkgState
      = (exPkgState,
         TaskResult.error (pyMessage (PyExn.attributeError ("Rule") ("send_notification"))))
    ∧ ((PkgTasks.apply_rule 3 5 exPkgState).1.applications.find?
          (fun a => decide (a.id = 3))).map (fun a => (a.status, a.notes))
      = some (("pending"), none) := by
  exact ⟨rfl, rfl⟩

/-- Claim C6: running sync_store_data twice against the same remote
catalog produces zero net row deltas: after the second run the Product,
ProductVariant, InventoryLocation and InventoryLevel tables have exactly
the same rows as after the first, equal in every column except the
last_synced / updated_at timestamps (which the scrub projections
discard), and in particular the same number of rows. Holds for any
initial local state; the hypotheses say the remote catalog carries no
duplicate natural keys (product ids, (product, variant) ids,
(product, variant, location) level keys), which mirrors the
unique-by-id shape of a real catalog. -/
theorem c6_sync_store_data_idempotent (cat : Sync.Catalog)
    (s : Sync.SyncState) (now1 now2 : Int)
    (hP : (Sync.opKeys (Sync.productOps 0 cat.products)).Nodup)
    (hV : (Sync.opKeys (Sync.variantOps 0 cat.products)).Nodup)
    (hL : (Sync.opKeys (Sync.lvOps 0 cat cat.products)).Nodup) :
    ((Sync.sync_store_data cat now2 (Sync.sync_store_data cat now1 s).1).1.products).map Sync.scrubP
      = ((Sync.sync_store_data cat now1 s).1.products).map Sync.scrubP
    ∧ ((Sync.sync_store_data cat now2 (Sync.sync_store_data cat now1 s).1).1.variants).map Sync.scrubV
      = ((Sync.sync_store_data cat now1 s).1.variants).map Sync.scrubV
    ∧ (Sync.sync_store_data cat now2 (Sync.sync_store_data cat now1 s).1).1.locations
      = (Sync.sync_store_data cat now1 s).1.locations
    ∧ ((Sync.sync_store_data cat now2 (Sync.sync_store_data cat now1 s).1).1.levels).map Sync.scrubL
      = ((Sync.sync_store_data cat now1 s).1.levels).map Sync.scrubL
    ∧ (Sync.sync_store_data cat now2 (Sync.sync_store_data cat now1 s).1).1.products.length
      = (Sync.sync_store_data cat now1 s).1.products.length
    ∧ (Sync.sync_store_data cat now2 (Sync.sync_store_data cat now1 s).1).1.variants.length
      = (Sync.sync_store_data cat now1 s).1.variants.length
    ∧ (Sync.sync_store_data cat now2 (Sync.sync_store_data cat now1 s).1).1.locations.length
      = (Sync.sync_store_data cat now1 s).1.locations.length
    ∧ (Sync.sync_store_data cat now2 (Sync.sync_store_data cat now1 s).1).1.levels.length
      = (Sync.sync_store_data cat now1 s).1.levels.length := by
  by_cases htok : strTruthy s.store.access_token = true
  · have htok1 : strTruthy (Sync.sync_store_data cat now1 s).1.store.access_token = true := by
      rw [Sync.sync_token]
      exact htok
    have hprod :
        ((Sync.sync_store_data cat now2 (Sync.sync_store_data cat now1 s).1).1.products).map Sync.scrubP
          = ((Sync.sync_store_data cat now1 s).1.products).map Sync.scrubP := by
      rw [Sync.sync_products_scrub cat now2 _ htok1,
          Sync.sync_products_scrub cat now1 s htok,
          Sync.productOps_idem cat.products _ hP]
    have hvar :
        ((Sync.sync_store_data cat now2 (Sync.sync_store_data cat now1 s).1).1.variants).map Sync.scrubV
          = ((Sync.sync_store_data cat now1 s).1.variants).map Sync.scrubV := by
      rw [Sync.sync_variants_scrub cat now2 _ htok1,
          Sync.sync_variants_scrub cat now1 s htok,
          Sync.variantOps_idem cat.products _ hV]
    have hloc :
        (Sync.sync_store_data cat now2 (Sync.sync_store_data cat now1 s).1).1.locations
          = (Sync.sync_store_data cat now1 s).1.locations := by
      rw [Sync.sync_locations_eq cat now2 _ htok1,
          Sync.sync_locations_eq cat now1 s htok,
          Sync.locOps_idem cat cat.products]
    have hlev :
        ((Sync.sync_store_data cat now2 (Sync.sync_store_data cat now1 s).1).1.levels).map Sync.scrubL
          = ((Sync.sync_store_data cat now1 s).1.levels).map Sync.scrubL := by
      rw [Sync.sync_levels_scrub cat now2 _ htok1,
          Sync.sync_levels_scrub cat now1 s htok,
          Sync.lvOps_idem cat cat.products _ hL]
    refine ⟨hprod, hvar, hloc, hlev, ?_, ?_, ?_, ?_⟩
    · have := congrArg List.length hprod
      simpa using this
    · have := congrArg List.length hvar
      simpa using this
    · exact congrArg List.length hloc
    · have := congrArg List.length hlev
      simpa using this
  · have hfalse : strTruthy s.store.access_token = false := by
      cases h : strTruthy s.store.access_token
      · rfl
      · exact absurd h htok
    have hs1 : (Sync.sync_store_data cat now1 s).1
        = { s with store := { s.store with sync_status := ("failed") } } :=
      congrArg Prod.fst (Sync.sync_failed_of_blank_token cat now1 s hfalse)
    have hfalse1 : strTruthy
        ({ s with store := { s.store with sync_status := ("failed") } } : Sync.SyncState).store.access_token
        = false := hfalse
    have hs2 : (Sync.sync_store_data cat now2 (Sync.sync_store_data cat now1 s).1).1
        = (Sync.sync_store_data cat now1 s).1 := by
      rw [hs1]
      exact congrArg Prod.fst (Sync.sync_failed_of_blank_token cat now2 _ hfalse1)
    rw [hs2]
    exact ⟨rfl, rfl, rfl, rfl, rfl, rfl, rfl, rfl⟩

/-- Witness for C6 on a one-product, one-variant, one-level catalog
starting from an empty local mirror. -/
theorem c6_sync_store_data_idempotent_witness :
    ((Sync.opKeys (Sync.productOps 0 exCatalog.products)).Nodup
      ∧ (Sync.opKeys (Sync.variantOps 0 exCatalog.products)).Nodup
      ∧ (Sync.opKeys (Sync.lvOps 0 exCatalog exCatalog.products)).Nodup)
    ∧ (((Sync.sync_store_data exCatalog 2 (Sync.sync_store_data exCatalog 1 exSyncState).1).1.products).map Sync.scrubP
        = ((Sync.sync_store_data exCatalog 1 exSyncState).1.products).map Sync.scrubP
      ∧ ((Sync.sync_store_data exCatalog 2 (Sync.sync_store_data exCatalog 1 exSyncState).1).1.variants).map Sync.scrubV
        = ((Sync.sync_store_data exCatalog 1 exSyncState).1.variants).map Sync.scrubV
      ∧ (Sync.sync_store_data exCatalog 2 (Sync.sync_store_data exCatalog 1 exSyncState).1).1.locations
        = (Sync.sync_store_data exCatalog 1 exSyncState).1.locations
      ∧ ((Sync.sync_store_data exCatalog 2 (Sync.sync_store_data exCatalog 1 exSyncState).1).1.levels).map Sync.scrubL
        = ((Sync.sync_store_data exCatalog 1 exSyncState).1.levels).map Sync.scrubL
      ∧ (Sync.sync_store_data exCatalog 2 (Sync.sync_store_data exCatalog 1 exSyncState).1).1.products.length
        = (Sync.sync_store_data exCatalog 1 exSyncState).1.products.length
      ∧ (Sync.sync_store_data exCatalog 2 (Sync.sync_store_data exCatalog 1 exSyncState).1).1.variants.length
        = (Sync.sync_store_data exCatalog 1 exSyncState).1.variants.length
      ∧ (Sync.sync_store_data exCatalog 2 (Sync.sync_store_data exCatalog 1 exSyncState).1).1.locations.length
        = (Sync.sync_store_data exCatalog 1 exSyncState).1.locations.length
      ∧ (Sync.sync_store_data exCatalog 2 (Sync.sync_store_data exCatalog 1 exSyncState).1).1.levels.length
        = (Sync.sync_store_data exCatalog 1 exSyncState).1.levels.length) :=
  ⟨⟨by decide, by decide, by decide⟩,
   c6_sync_store_data_idempotent exCatalog exSyncState 1 2
     (by decide) (by decide) (by decide)⟩

/-- Claim C7: a store whose access token is absent or empty fails
immediately: sync_store_data returns an error, marks the store
sync_status failed, leaves every Product row (and so every last_synced
timestamp) untouched, and never reaches the remote catalog: its result
does not depend on the catalog at all. -/
theorem c7_sync_fails_without_token (cat cat2 : Sync.Catalog) (now : Int)
    (s : Sync.SyncState)
    (htok : strTruthy s.store.access_token = false) :
    (Sync.sync_store_data cat now s).2
       = Sync.SyncResult.error ("Store has no access token")
    ∧ (Sync.sync_store_data cat now s).1.store.sync_status = ("failed")
    ∧ (Sync.sync_store_data cat now s).1.products = s.products
    ∧ (Sync.sync_store_data cat now s).1.variants = s.variants
    ∧ (Sync.sync_store_data cat now s).1.levels = s.levels
    ∧ Sync.sync_store_data cat now s = Sync.sync_store_data cat2 now s := by
  rw [Sync.sync_failed_of_blank_token cat now s htok,
      Sync.sync_failed_of_blank_token cat2 now s htok]
  exact ⟨rfl, rfl, rfl, rfl, rfl, rfl⟩

/-- Witness for C7: a store whose credential is the empty string. -/
theorem c7_sync_fails_without_token_witness :
    strTruthy exSyncStateNoToken.store.access_token = false
    ∧ ((Sync.sync_store_data exCatalog 3 exSyncStateNoToken).2
         = Sync.SyncResult.error ("Store has no access token")
      ∧ (Sync.sync_store_data exCatalog 3 exSyncStateNoToken).1.store.sync_status = ("failed")
      ∧ (Sync.sync_store_data exCatalog 3 exSyncStateNoToken).1.products = exSyncStateNoToken.products
      ∧ (Sync.sync_store_data exCatalog 3 exSyncStateNoToken).1.variants = exSyncStateNoToken.variants
      ∧ (Sync.sync_store_data exCatalog 3 exSyncStateNoToken).1.levels = exSyncStateNoToken.levels
      ∧ Sync.sync_store_data exCatalog 3 exSyncStateNoToken
          = Sync.sync_store_data { products := [], inventory := [] } 3 exSyncStateNoToken) :=
  ⟨by decide,
   c7_sync_fails_without_token exCatalog { products := [], inventory := [] } 3
     exSyncStateNoToken (by decide)⟩

/-- Claim C8: sync_product (apps/inventory/tasks.py lines 220 to 237)
classifies a product as out of stock, and invokes
process_out_of_stock_rules for it, exactly when the sum of available
over all of the InventoryLevel rows of its variant-and-location pairs is
at most zero; and a product whose rows sum to available 1 at one single
location (the concrete third conjunct) is not classified out of stock
and triggers no rule processing. -/
theorem c8_out_of_stock_threshold (pid : Nat)
    (variants : List FlatTasks.VariantRow) (levels : List FlatTasks.LevelRow) :
    ((FlatTasks.sync_product_stock_check pid variants levels).rules_processed = true
        ↔ FlatTasks.total_inventory pid variants levels ≤ 0)
    ∧ ((FlatTasks.sync_product_stock_check pid variants levels).is_out_of_stock = true
        ↔ FlatTasks.total_inventory pid variants levels ≤ 0)
    ∧ (FlatTasks.sync_product_stock_check 1
          [{ id := 21, product_id := 1 }]
          [{ variant_id := 21, location_id := 41, available := 1 }]).is_out_of_stock = false
    ∧ (FlatTasks.sync_product_stock_check 1
          [{ id := 21, product_id := 1 }]
          [{ variant_id := 21, location_id := 41, available := 1 }]).rules_processed = false := by
  refine ⟨?_, ?_, by decide, by decide⟩
  · unfold FlatTasks.sync_product_stock_check
    simp
  · unfold FlatTasks.sync_product_stock_check
    simp

/-- Claim C9: rule_matches_product is the AND-conjunction of the
configured filters, embedded as a pure function of its two row
arguments: it returns true exactly when every truthy (set, non-empty)
filter is literally equal, case-sensitively, to the corresponding
product attribute; an unset or empty filter always passes (its
implication is vacuous), and a set filter compared against a product
attribute of None fails, since some-equality is exact. -/
theorem c9_rule_matches_product_conjunction (rule : Rule) (product : Product) :
    rule_matches_product rule product = true
      ↔ ((strTruthy rule.product_type_filter = true →
            rule.product_type_filter = product.product_type)
         ∧ (strTruthy rule.vendor_filter = true →
            rule.vendor_filter = product.vendor)) := by
  unfold rule_matches_product
  by_cases h1 : strTruthy rule.product_type_filter = true <;>
    by_cases h3 : rule.product_type_filter = product.product_type <;>
      by_cases h2 : strTruthy rule.vendor_filter = true <;>
        by_cases h4 : rule.vendor_filter = product.vendor <;>
          simp [h1, h2, h3, h4]

/-- Claim C10 counterexample: the claim says every non-2xx status other
than 429 makes the client return None, but raise_for_status only raises
for 400 to 599, so a 300 response (non-2xx, not 429) flows through to
response.json() and its body is returned, not None. -/
theorem c10_counterexample_3xx_returns_body :
    (¬ (200 ≤ 300 ∧ 300 < 300)) ∧ (300 : Nat) ≠ 429
    ∧ Client.clientRequest ("GET") [Client.HttpAttempt.resp 300 ("body")]
        = Except.ok (some ("body")) := by
  exact ⟨by decide, by decide, rfl⟩

/-- Claim C10 amended: when the underlying request raises a requests
exception, or the response status is 4xx or 5xx and not 429 (the statuses
for which raise_for_status raises HTTPError, which the except branch
catches), every REST wrapper (get_products, update_product,
get_inventory_levels, create_webhook) returns None rather than
propagating an exception. -/
theorem c10_client_returns_none_on_failure
    (attempts rest : List Client.HttpAttempt) (status : Nat) (body : String)
    (hfail : attempts = Client.HttpAttempt.exn :: rest
       ∨ (attempts = Client.HttpAttempt.resp status body :: rest
          ∧ 400 ≤ status ∧ status < 600 ∧ status ≠ 429)) :
    Client.get_products attempts = Except.ok none
    ∧ Client.update_product attempts = Except.ok none
    ∧ Client.get_inventory_levels attempts = Except.ok none
    ∧ Client.create_webhook attempts = Except.ok none := by
  have htrace : Client.clientRequestTrace attempts = none := by
    rcases hfail with h | ⟨h, h4, h6, h9⟩
    · rw [h]
      rfl
    · rw [h]
      unfold Client.clientRequestTrace
      rw [if_neg h9, if_pos ⟨h4, h6⟩]
  refine ⟨?_, ?_, ?_, ?_⟩
  · show Client.clientRequest ("GET") attempts = Except.ok none
    unfold Client.clientRequest
    rw [if_pos (Or.inl rfl), htrace]
  · show Client.clientRequest ("PUT") attempts = Except.ok none
    unfold Client.clientRequest
    rw [if_pos (Or.inr (Or.inr (Or.inl rfl))), htrace]
  · show Client.clientRequest ("GET") attempts = Except.ok none
    unfold Client.clientRequest
    rw [if_pos (Or.inl rfl), htrace]
  · show Client.clientRequest ("POST") attempts = Except.ok none
    unfold Client.clientRequest
    rw [if_pos (Or.inr (Or.inl rfl)), htrace]

/-- Witness for the amended C10 at a 503 response. -/
theorem c10_client_returns_none_on_failure_witness :
    ([Client.HttpAttempt.resp 503 ("overloaded")] = Client.HttpAttempt.exn :: []
       ∨ ([Client.HttpAttempt.resp 503 ("overloaded")]
            = Client.HttpAttempt.resp 503 ("overloaded") :: []
          ∧ 400 ≤ 503 ∧ 503 < 600 ∧ 503 ≠ 429))
    ∧ (Client.get_products [Client.HttpAttempt.resp 503 ("overloaded")] = Except.ok none
      ∧ Client.update_product [Client.HttpAttempt.resp 503 ("overloaded")] = Except.ok none
      ∧ Client.get_inventory_levels [Client.HttpAttempt.resp 503 ("overloaded")] = Except.ok none
      ∧ Client.create_webhook [Client.HttpAttempt.resp 503 ("overloaded")] = Except.ok none) :=
  ⟨Or.inr ⟨rfl, by decide, by decide, by decide⟩,
   c10_client_returns_none_on_failure [Client.HttpAttempt.resp 503 ("overloaded")]
     [] 503 ("overloaded") (Or.inr ⟨rfl, by decide, by decide, by decide⟩)⟩
